import Mathlib

/-!
# Manta: the adaptive time-step controller

A shallow embedding of `fluidsolver.go` (with the constant `VectorEpsilon` of
`vector.go` and the `vec3` record it uses), and of the functions `abs`, `sqrt`
of `number.go` and `normSquare`, `norm`, `dot`, `vec3Sub`, `vec3Scale`,
`projectNormalTo` of `vector.go`.

Numeric models.  The controller is embedded twice, with the same control flow
and the same integer arithmetic, and two readings of `float64`.

* The exact model (`Manta.FluidSolver`, `Manta.run`) reads a `float64` as an
  exact rational `ℚ`: no rounding, no infinity, no NaN.  It carries the
  results that quote the tests and assignments of the code: which branch of
  `AdaptTimestep` or `Step` runs, what it assigns, which fields it leaves
  alone, and when the final check panics.  It is not used for bounds,
  monotonicity or accumulated sums, which rounding, overflow and NaN decide.
* The IEEE model (`Manta.IEEE.FluidSolver`, `Manta.IEEE.run`) reads a
  `float64` as an IEEE-754 binary64 value (`IEEE.F64`): NaN, an infinity, or a
  finite number.  Every operation rounds the exact result to the nearest
  representable number, ties to even, with gradual underflow and overflow to
  an infinity (`IEEE.round64`); operations on infinities and NaN, the
  comparisons, `math.Min` and `math.Max` follow IEEE-754 and the special
  cases of the Go library; decimal constants and `float64(f.Frame)` are
  rounded the same way.  Each operation is rounded on its own (no fused
  multiply-add).  The sign of a zero is not tracked: the controller divides
  only by `mvt + 1e-05` and by the constant `2`, a sum of two numbers is a
  negative zero only when both are, and no other operation the controller
  uses tells the two zeros apart.  The type `IEEE.F64` also holds finite
  numbers that are not representable; the general results hold for every
  value of the type, hence for the representable ones, and every concrete
  state is built from rounded constants.

Go `int` is modelled by `Int` with the explicit two's complement wrap of a
64-bit word (`wrapInt64`) at the one place where the controller does integer
arithmetic (`f.Frame++`).

Generics.  A Go function with a type parameter `T Number` takes the operations
of `T` as an explicit record `Number T`; `int64` (64-bit wrapping arithmetic on
`Int`) and `float64` (exact arithmetic on `ℚ`) are its two instances.  The
library function `math.Sqrt` is a parameter `mathSqrt` of the functions that
reach it.

Panics.  The methods have a pointer receiver, so the writes made before a
`panic` stay visible in the receiver.  `AdaptTimestep` therefore yields the
receiver after the call together with an `Outcome` saying whether the call
returned or panicked.
-/

namespace Manta

/-- Constant `VectorEpsilon` of `vector.go` (an untyped Go constant `0`, used
here at type `float64`). -/
def VectorEpsilon : ℚ := 0

/-- Record `vec3[T]` of `vector.go`. -/
structure vec3 (T : Type) where
  x : T
  y : T
  z : T
deriving DecidableEq, Repr

/-- Two's complement wrap of an integer to the range of a 64-bit Go `int`. -/
def wrapInt64 (n : Int) : Int := (n + 2 ^ 63) % 2 ^ 64 - 2 ^ 63

/-- Record `FluidSolver` of `fluidsolver.go`, its `float64` fields in the
exact model. -/
structure FluidSolver where
  Dt : ℚ
  LockDt : Bool
  TimePerFrame : ℚ
  TimeTotal : ℚ
  Frame : Int
  FrameLength : ℚ
  CflCond : ℚ
  DtMin : ℚ
  DtMax : ℚ
  GridSize : vec3 Int
  Dim : Int
  FourthDim : Bool
deriving DecidableEq, Repr

/-- How a call ended: it returned, or it panicked with a message. -/
inductive Outcome where
  | returned : Outcome
  | panicked (msg : String) : Outcome
deriving DecidableEq, Repr

/-- Function `NewFluidSolver`: the two guards panic, otherwise the default
controller is returned. -/
def NewFluidSolver (gridSize : vec3 Int) (dim : Int) (fourthDim : Bool) :
    Except String FluidSolver :=
  if dim = 4 ∧ !fourthDim then
    .error "Don't create 4D solvers, use 3D with fourthDim parameter = true instead."
  else if dim ≠ 2 ∧ dim ≠ 3 then
    .error "Only 2D and 3D solvers allowed."
  else
    .ok {
      Dt := 1
      LockDt := false
      TimePerFrame := 0
      TimeTotal := 0
      Frame := 0
      FrameLength := 1
      CflCond := 1000
      DtMin := 1
      DtMax := 1
      GridSize := gridSize
      Dim := dim
      FourthDim := fourthDim }

namespace FluidSolver

/-- Method `Step` in the exact model: accumulate `Dt`, then the
frame-boundary test against `VectorEpsilon`.  The sums and the product
`float64(f.Frame) * f.FrameLength` are exact here; `IEEE.FluidSolver.Step`
rounds them. -/
def Step (f : FluidSolver) : FluidSolver :=
  let f1 := { f with TimePerFrame := f.TimePerFrame + f.Dt }
  let f2 := { f1 with TimeTotal := f1.TimeTotal + f1.Dt }
  if f2.TimePerFrame < VectorEpsilon then
    let f3 := { f2 with Frame := wrapInt64 (f2.Frame + 1) }
    let f4 := { f3 with TimeTotal := (f3.Frame : ℚ) * f3.FrameLength }
    let f5 := { f4 with TimePerFrame := 0 }
    { f5 with LockDt := false }
  else
    f2

/-- The expression assigned to `f.Dt` on line 61 of `AdaptTimestep`, in the
exact model: the CFL estimate clamped with `math.Min` against `DtMax` and
`math.Max` against `DtMin`.  The quotient is exact here and cannot overflow;
`IEEE.FluidSolver.cflProposal` computes it in `float64`. -/
def cflProposal (f : FluidSolver) (maxVel : ℚ) : ℚ :=
  let mvt := maxVel * f.Dt
  max (min (f.Dt * f.CflCond / (mvt + 1e-05)) f.DtMax) f.DtMin

/-- The receiver after lines 58-70 of `AdaptTimestep` (everything before the
final check). -/
def adaptBody (f : FluidSolver) (maxVel : ℚ) : FluidSolver :=
  if !f.LockDt then
    let f1 := { f with Dt := cflProposal f maxVel }
    if (f1.TimePerFrame + f1.Dt * 1.05) > f1.FrameLength then
      { f1 with Dt := f1.FrameLength - f1.TimePerFrame + 1e-04 }
    else if (f1.TimePerFrame + f1.Dt + f1.DtMin) > f1.FrameLength
        ∨ (f1.TimePerFrame + f1.Dt * 1.25) > f1.FrameLength then
      let f2 := { f1 with Dt := (f1.FrameLength - f1.TimePerFrame + 1e-04) * 0.5 }
      { f2 with LockDt := true }
    else
      f1
  else
    f

/-- Method `AdaptTimestep`: the receiver after the call, and whether the final
check `f.Dt <= f.DtMin/2` panicked. -/
def AdaptTimestep (f : FluidSolver) (maxVel : ℚ) : FluidSolver × Outcome :=
  let g := adaptBody f maxVel
  if g.Dt ≤ g.DtMin / 2 then
    (g, .panicked "Invalid dt encountered! Shouldn't happen.")
  else
    (g, .returned)

end FluidSolver

/-- One call made by the driver loop on a controller. -/
inductive Call where
  | adapt (maxVel : ℚ) : Call
  | step : Call
deriving DecidableEq, Repr

/-- Perform one call: `AdaptTimestep` may panic, `Step` has no panic path. -/
def Call.exec : Call → FluidSolver → FluidSolver × Outcome
  | .adapt maxVel, f => f.AdaptTimestep maxVel
  | .step, f => (f.Step, .returned)

/-- Perform a sequence of calls in order; a panic ends the run. -/
def run : FluidSolver → List Call → FluidSolver × Outcome
  | f, [] => (f, .returned)
  | f, c :: cs =>
    match c.exec f with
    | (g, .returned) => run g cs
    | (g, .panicked msg) => (g, .panicked msg)

/-- The documented call order `adapt, step, adapt, step, ...`, one round per
velocity. -/
def alternate : List ℚ → List Call
  | [] => []
  | v :: vs => .adapt v :: .step :: alternate vs

/-- The message of the panic at the end of `AdaptTimestep`. -/
def invalidDt : String := "Invalid dt encountered! Shouldn't happen."

/-- The controller `NewFluidSolver` returns for a 64x64x64 grid in 3D. -/
def freshSolver : FluidSolver :=
  { Dt := 1, LockDt := false, TimePerFrame := 0, TimeTotal := 0, Frame := 0,
    FrameLength := 1, CflCond := 1000, DtMin := 1, DtMax := 1,
    GridSize := ⟨64, 64, 64⟩, Dim := 3, FourthDim := false }

/-- The controller of the frame-fitting example: `FrameLength = 1`,
`TimePerFrame = 0.9`, `DtMin = 0.2`, `DtMax = 0.5`, `Dt = 0.5`,
`CflCond = 1000`. -/
def fittingSolver : FluidSolver :=
  { Dt := 0.5, LockDt := false, TimePerFrame := 0.9, TimeTotal := 0.9, Frame := 0,
    FrameLength := 1, CflCond := 1000, DtMin := 0.2, DtMax := 0.5,
    GridSize := ⟨64, 64, 64⟩, Dim := 3, FourthDim := false }

/-- The controller of the overshoot example: `TimePerFrame = 0.96`,
`FrameLength = 1`, with `DtMin = 0.05` and `DtMax = 0.5`. -/
def overshootSolver : FluidSolver :=
  { Dt := 0.1, LockDt := false, TimePerFrame := 0.96, TimeTotal := 0.96, Frame := 0,
    FrameLength := 1, CflCond := 1000, DtMin := 0.05, DtMax := 0.5,
    GridSize := ⟨64, 64, 64⟩, Dim := 3, FourthDim := false }

/-- A controller half way through a frame whose next full step would leave a
remainder below `DtMin`: `TimePerFrame = 0.5`, `DtMin = 0.2`, `DtMax = 0.4`. -/
def splitSolver : FluidSolver :=
  { Dt := 0.4, LockDt := false, TimePerFrame := 0.5, TimeTotal := 0.5, Frame := 0,
    FrameLength := 1, CflCond := 1000, DtMin := 0.2, DtMax := 0.4,
    GridSize := ⟨64, 64, 64⟩, Dim := 3, FourthDim := false }

/-- The controller `splitSolver` after `AdaptTimestep` took the split branch
and `Step` advanced it: locked, `Dt = 0.25005`, `TimePerFrame = 0.75005`. -/
def lockedSolver : FluidSolver :=
  { Dt := 0.25005, LockDt := true, TimePerFrame := 0.75005, TimeTotal := 0.75005, Frame := 0,
    FrameLength := 1, CflCond := 1000, DtMin := 0.2, DtMax := 0.4,
    GridSize := ⟨64, 64, 64⟩, Dim := 3, FourthDim := false }

/-- The default controller after its first `AdaptTimestep`: `Dt = 1.0001`. -/
def snappedSolver : FluidSolver :=
  { Dt := 1.0001, LockDt := false, TimePerFrame := 0, TimeTotal := 0, Frame := 0,
    FrameLength := 1, CflCond := 1000, DtMin := 1, DtMax := 1,
    GridSize := ⟨64, 64, 64⟩, Dim := 3, FourthDim := false }

/-- A controller whose accumulated frame time is negative (`TimePerFrame = -2`,
`Dt = 1`), locked, in frame 4: the only kind of state on which the boundary
test of `Step` fires. -/
def rewindSolver : FluidSolver :=
  { Dt := 1, LockDt := true, TimePerFrame := -2, TimeTotal := 2, Frame := 4,
    FrameLength := 1, CflCond := 1000, DtMin := 1, DtMax := 1,
    GridSize := ⟨64, 64, 64⟩, Dim := 3, FourthDim := false }

/-- A controller in the last frame a 64-bit `int` can count
(`Frame = 2^63 - 1`) whose accumulated frame time is negative, so that the
boundary test of `Step` fires. -/
def lastFrameSolver : FluidSolver :=
  { Dt := 1, LockDt := false, TimePerFrame := -2, TimeTotal := 0, Frame := 2 ^ 63 - 1,
    FrameLength := 1, CflCond := 1000, DtMin := 1, DtMax := 1,
    GridSize := ⟨64, 64, 64⟩, Dim := 3, FourthDim := false }

/-- The facts every normally running controller keeps: a positive timestep, a
non-negative frame time and a positive `DtMin`. -/
def Running (f : FluidSolver) : Prop :=
  0 < f.Dt ∧ 0 ≤ f.TimePerFrame ∧ 0 < f.DtMin

/-! ## The vector library -/

/-- The untyped integer constant `VectorEpsilon` of `vector.go`, for its uses
at a type parameter `T`. -/
def VectorEpsilonConst : Int := 0

/-- The operations of a type in the constraint `Number` (`int64 | float64`) of
`number.go`: arithmetic, comparisons, the conversion `T(c)` of an integer
constant, and the conversions `float64(n)` and `T(x)` to and from
`float64`. -/
structure Number (T : Type) where
  add : T → T → T
  sub : T → T → T
  mul : T → T → T
  le : T → T → Bool
  lt : T → T → Bool
  conv : Int → T
  toFloat64 : T → ℚ
  ofFloat64 : ℚ → T

/-- The type `int64`: arithmetic wraps to 64 bits, `float64(n)` is the value
itself, `int64(x)` truncates toward zero. -/
def int64 : Number Int where
  add a b := wrapInt64 (a + b)
  sub a b := wrapInt64 (a - b)
  mul a b := wrapInt64 (a * b)
  le a b := decide (a ≤ b)
  lt a b := decide (a < b)
  conv c := wrapInt64 c
  toFloat64 n := (n : ℚ)
  ofFloat64 x := wrapInt64 (if 0 ≤ x then ⌊x⌋ else ⌈x⌉)

/-- The type `float64`, as exact rationals. -/
def float64 : Number ℚ where
  add a b := a + b
  sub a b := a - b
  mul a b := a * b
  le a b := decide (a ≤ b)
  lt a b := decide (a < b)
  conv c := (c : ℚ)
  toFloat64 x := x
  ofFloat64 x := x

/-- Function `abs` of `number.go`: `n * -1`. -/
def abs {T : Type} (N : Number T) (n : T) : T :=
  N.mul n (N.conv (-1))

/-- Function `sqrt` of `number.go`: `T(math.Sqrt(float64(n)))`. -/
def sqrt {T : Type} (mathSqrt : ℚ → ℚ) (N : Number T) (n : T) : T :=
  N.ofFloat64 (mathSqrt (N.toFloat64 n))

/-- Function `vec3Sub` of `vector.go`. -/
def vec3Sub {T : Type} (N : Number T) (v1 v2 : vec3 T) : vec3 T :=
  { x := N.sub v1.x v2.x
    y := N.sub v1.y v2.y
    z := N.sub v1.z v2.z }

/-- Function `vec3Scale` of `vector.go`. -/
def vec3Scale {T : Type} (N : Number T) (v : vec3 T) (k : T) : vec3 T :=
  { x := N.mul v.x k
    y := N.mul v.y k
    z := N.mul v.z k }

/-- Function `dot` of `vector.go`: `v1.x*v2.x + v1.y*v2.y + v1.z + v2.z`. -/
def dot {T : Type} (N : Number T) (v1 v2 : vec3 T) : T :=
  N.add (N.add (N.add (N.mul v1.x v2.x) (N.mul v1.y v2.y)) v1.z) v2.z

/-- Function `projectNormalTo` of `vector.go`. -/
def projectNormalTo {T : Type} (N : Number T) (v n : vec3 T) : vec3 T :=
  vec3Scale N (vec3Sub N v n) (dot N v n)

/-- Function `normSquare` of `vector.go`. -/
def normSquare {T : Type} (N : Number T) (v : vec3 T) : T :=
  N.add (N.add (N.mul v.x v.x) (N.mul v.y v.y)) (N.mul v.z v.z)

/-- Function `norm` of `vector.go`. -/
def norm {T : Type} (mathSqrt : ℚ → ℚ) (N : Number T) (v : vec3 T) : T :=
  let ls := normSquare N v
  if N.le ls (N.conv (VectorEpsilonConst * VectorEpsilonConst)) then
    N.conv 0
  else if N.lt (abs N (N.sub ls (N.conv 1)))
      (N.conv (VectorEpsilonConst * VectorEpsilonConst)) then
    N.conv 1
  else
    sqrt mathSqrt N ls

/-- The conventional dot product `a.x*b.x + a.y*b.y + a.z*b.z`, as the
specification words it (not a function of the source). -/
def conventionalDot {T : Type} (N : Number T) (a b : vec3 T) : T :=
  N.add (N.add (N.mul a.x b.x) (N.mul a.y b.y)) (N.mul a.z b.z)

/-- The projection `v - (v·n) n` with the conventional dot product, as the
specification words it (not a function of the source). -/
def conventionalProjection {T : Type} (N : Number T) (v n : vec3 T) : vec3 T :=
  vec3Sub N v (vec3Scale N n (conventionalDot N v n))

/-! ## The IEEE model: `float64` with rounding, infinities and NaN -/

namespace IEEE

/-- A `float64` value: NaN, an infinity, or a finite number.  The sign of a
zero is not tracked: the controller never divides by a value that can be a
negative zero (its divisors are `mvt + 1e-05` and the constant `2`), and no
other operation it uses tells the two zeros apart. -/
inductive F64 where
  | nan : F64
  | negInf : F64
  | posInf : F64
  | fin (q : ℚ) : F64
deriving DecidableEq, Repr

/-- Floor of the binary logarithm of a natural number, by repeated halving
(`fuel` bounds the number of halvings). -/
def log2Fuel : Nat → Nat → Nat
  | 0, _ => 0
  | fuel + 1, n => if n < 2 then 0 else log2Fuel fuel (n / 2) + 1

/-- Floor of the binary logarithm of a natural number (`0` at `0`). -/
def natLog2 (n : Nat) : Nat := log2Fuel n n

/-- The rational `2^e` for an integer exponent. -/
def pow2 (e : Int) : ℚ :=
  if 0 ≤ e then ((2 ^ e.toNat : Nat) : ℚ) else 1 / ((2 ^ (-e).toNat : Nat) : ℚ)

/-- The exponent `e` with `2^e <= a < 2^(e+1)`, for a positive rational. -/
def binade (a : ℚ) : Int :=
  let e0 : Int := (natLog2 a.num.natAbs : Int) - (natLog2 a.den : Int)
  if pow2 e0 ≤ a then e0 else e0 - 1

/-- Round a rational to the nearest integer, ties to the even one. -/
def rne (x : ℚ) : Int :=
  let f := ⌊x⌋
  let d := x - f
  if d < 1 / 2 then f else if 1 / 2 < d then f + 1 else if f % 2 = 0 then f else f + 1

/-- Round a positive rational to 53 significant bits (to a multiple of
`2^-1074` in the subnormal range), ties to even, with unbounded exponent
above. -/
def roundMag (a : ℚ) : ℚ :=
  let e := max (binade a) (-1022)
  let u := pow2 (e - 52)
  (rne (a / u) : ℚ) * u

/-- IEEE 754 binary64 rounding of an exact result, round-to-nearest-even:
magnitudes that round to `2^1024` or more overflow to an infinity. -/
def round64 (q : ℚ) : F64 :=
  if q = 0 then .fin 0
  else if 0 < q then
    (if pow2 1024 ≤ roundMag q then .posInf else .fin (roundMag q))
  else
    (if pow2 1024 ≤ roundMag (-q) then .negInf else .fin (-roundMag (-q)))

/-- Conversion of a Go constant to `float64`. -/
def lit (q : ℚ) : F64 := round64 q

/-- Conversion `float64(n)` of an integer. -/
def ofInt (n : Int) : F64 := round64 (n : ℚ)

namespace F64

/-- Go `-x`. -/
def neg : F64 → F64
  | nan => nan
  | negInf => posInf
  | posInf => negInf
  | fin q => fin (-q)

/-- Go `x + y` on `float64`. -/
def add : F64 → F64 → F64
  | nan, _ => nan
  | _, nan => nan
  | posInf, negInf => nan
  | negInf, posInf => nan
  | posInf, _ => posInf
  | _, posInf => posInf
  | negInf, _ => negInf
  | _, negInf => negInf
  | fin a, fin b => round64 (a + b)

/-- Go `x - y` on `float64`. -/
def sub (x y : F64) : F64 := add x (neg y)

/-- Go `x * y` on `float64`. -/
def mul : F64 → F64 → F64
  | nan, _ => nan
  | _, nan => nan
  | posInf, posInf => posInf
  | posInf, negInf => negInf
  | negInf, posInf => negInf
  | negInf, negInf => posInf
  | posInf, fin b => if b = 0 then nan else if 0 < b then posInf else negInf
  | negInf, fin b => if b = 0 then nan else if 0 < b then negInf else posInf
  | fin a, posInf => if a = 0 then nan else if 0 < a then posInf else negInf
  | fin a, negInf => if a = 0 then nan else if 0 < a then negInf else posInf
  | fin a, fin b => round64 (a * b)

/-- Go `x / y` on `float64` (a zero divisor is a positive zero). -/
def div : F64 → F64 → F64
  | nan, _ => nan
  | _, nan => nan
  | posInf, posInf => nan
  | posInf, negInf => nan
  | negInf, posInf => nan
  | negInf, negInf => nan
  | posInf, fin b => if 0 ≤ b then posInf else negInf
  | negInf, fin b => if 0 ≤ b then negInf else posInf
  | fin _, posInf => fin 0
  | fin _, negInf => fin 0
  | fin a, fin b =>
    if b = 0 then (if a = 0 then nan else if 0 < a then posInf else negInf)
    else round64 (a / b)

/-- Go `x <= y` on `float64`: false as soon as one side is NaN. -/
def le : F64 → F64 → Bool
  | nan, _ => false
  | _, nan => false
  | negInf, _ => true
  | _, posInf => true
  | posInf, _ => false
  | _, negInf => false
  | fin a, fin b => decide (a ≤ b)

/-- Go `x < y` on `float64`: false as soon as one side is NaN. -/
def lt : F64 → F64 → Bool
  | nan, _ => false
  | _, nan => false
  | posInf, _ => false
  | _, negInf => false
  | negInf, _ => true
  | _, posInf => true
  | fin a, fin b => decide (a < b)

/-- Go `x > y` on `float64`. -/
def gt (x y : F64) : Bool := lt y x

end F64

/-- Library function `math.Min`: `-Inf` wins, then NaN, then the smaller
one. -/
def mathMin : F64 → F64 → F64
  | .negInf, _ => .negInf
  | _, .negInf => .negInf
  | .nan, _ => .nan
  | _, .nan => .nan
  | x, y => if F64.lt x y then x else y

/-- Library function `math.Max`: `+Inf` wins, then NaN, then the larger
one. -/
def mathMax : F64 → F64 → F64
  | .posInf, _ => .posInf
  | _, .posInf => .posInf
  | .nan, _ => .nan
  | _, .nan => .nan
  | x, y => if F64.gt x y then x else y

/-- Record `FluidSolver` of `fluidsolver.go`, its `float64` fields in the
IEEE model. -/
structure FluidSolver where
  Dt : F64
  LockDt : Bool
  TimePerFrame : F64
  TimeTotal : F64
  Frame : Int
  FrameLength : F64
  CflCond : F64
  DtMin : F64
  DtMax : F64
  GridSize : vec3 Int
  Dim : Int
  FourthDim : Bool
deriving DecidableEq, Repr

/-- Function `NewFluidSolver` in the IEEE model. -/
def NewFluidSolver (gridSize : vec3 Int) (dim : Int) (fourthDim : Bool) :
    Except String FluidSolver :=
  if dim = 4 ∧ !fourthDim then
    .error "Don't create 4D solvers, use 3D with fourthDim parameter = true instead."
  else if dim ≠ 2 ∧ dim ≠ 3 then
    .error "Only 2D and 3D solvers allowed."
  else
    .ok {
      Dt := lit 1
      LockDt := false
      TimePerFrame := lit 0
      TimeTotal := lit 0
      Frame := 0
      FrameLength := lit 1
      CflCond := lit 1000
      DtMin := lit 1
      DtMax := lit 1
      GridSize := gridSize
      Dim := dim
      FourthDim := fourthDim }

namespace FluidSolver

/-- Method `Step` in the IEEE model: each `+=` is a rounded addition and
`float64(f.Frame)` a rounded conversion. -/
def Step (f : FluidSolver) : FluidSolver :=
  let f1 := { f with TimePerFrame := F64.add f.TimePerFrame f.Dt }
  let f2 := { f1 with TimeTotal := F64.add f1.TimeTotal f1.Dt }
  if F64.lt f2.TimePerFrame (lit VectorEpsilon) then
    let f3 := { f2 with Frame := wrapInt64 (f2.Frame + 1) }
    let f4 := { f3 with TimeTotal := F64.mul (ofInt f3.Frame) f3.FrameLength }
    let f5 := { f4 with TimePerFrame := lit 0 }
    { f5 with LockDt := false }
  else
    f2

/-- The `float64` quotient `f.Dt*f.CflCond/(mvt+1e-05)` of line 61. -/
def cflRaw (f : FluidSolver) (maxVel : F64) : F64 :=
  let mvt := F64.mul maxVel f.Dt
  F64.div (F64.mul f.Dt f.CflCond) (F64.add mvt (lit 1e-05))

/-- The expression assigned to `f.Dt` on line 61 of `AdaptTimestep`. -/
def cflProposal (f : FluidSolver) (maxVel : F64) : F64 :=
  mathMax (mathMin (cflRaw f maxVel) f.DtMax) f.DtMin

/-- The test of line 62, `(f.TimePerFrame + f.Dt*1.05) > f.FrameLength`. -/
def snapTest (f : FluidSolver) : Bool :=
  F64.gt (F64.add f.TimePerFrame (F64.mul f.Dt (lit 1.05))) f.FrameLength

/-- The test of line 65, `(f.TimePerFrame+f.Dt+f.DtMin) > f.FrameLength ||
(f.TimePerFrame+f.Dt*1.25) > f.FrameLength`. -/
def splitTest (f : FluidSolver) : Bool :=
  F64.gt (F64.add (F64.add f.TimePerFrame f.Dt) f.DtMin) f.FrameLength
    || F64.gt (F64.add f.TimePerFrame (F64.mul f.Dt (lit 1.25))) f.FrameLength

/-- The receiver after lines 58-70 of `AdaptTimestep` in the IEEE model. -/
def adaptBody (f : FluidSolver) (maxVel : F64) : FluidSolver :=
  if !f.LockDt then
    let f1 := { f with Dt := cflProposal f maxVel }
    if snapTest f1 then
      { f1 with Dt := F64.add (F64.sub f1.FrameLength f1.TimePerFrame) (lit 1e-04) }
    else if splitTest f1 then
      let f2 := { f1 with
        Dt := F64.mul (F64.add (F64.sub f1.FrameLength f1.TimePerFrame) (lit 1e-04)) (lit 0.5) }
      { f2 with LockDt := true }
    else
      f1
  else
    f

/-- Method `AdaptTimestep` in the IEEE model: the receiver after the call, and
whether the final check `f.Dt <= f.DtMin/2` panicked. -/
def AdaptTimestep (f : FluidSolver) (maxVel : F64) : FluidSolver × Outcome :=
  let g := adaptBody f maxVel
  if F64.le g.Dt (F64.div g.DtMin (lit 2)) then
    (g, .panicked "Invalid dt encountered! Shouldn't happen.")
  else
    (g, .returned)

end FluidSolver

/-- One call made by the driver loop, its velocity a `float64`. -/
inductive Call where
  | adapt (maxVel : F64) : Call
  | step : Call
deriving DecidableEq, Repr

/-- Perform one call: `AdaptTimestep` may panic, `Step` has no panic path. -/
def Call.exec : Call → FluidSolver → FluidSolver × Outcome
  | .adapt maxVel, f => f.AdaptTimestep maxVel
  | .step, f => (f.Step, .returned)

/-- Perform a sequence of calls in order; a panic ends the run. -/
def run : FluidSolver → List Call → FluidSolver × Outcome
  | f, [] => (f, .returned)
  | f, c :: cs =>
    match c.exec f with
    | (g, .returned) => run g cs
    | (g, .panicked msg) => (g, .panicked msg)

/-- A controller with its stability configuration set after construction. -/
def withConfig (s : FluidSolver) (frameLength cflCond dtMin dtMax : F64) : FluidSolver :=
  { s with FrameLength := frameLength, CflCond := cflCond, DtMin := dtMin, DtMax := dtMax }

/-- The controller `NewFluidSolver` returns for a 64x64x64 grid in 3D. -/
def freshSolver : FluidSolver :=
  { Dt := lit 1, LockDt := false, TimePerFrame := lit 0, TimeTotal := lit 0, Frame := 0,
    FrameLength := lit 1, CflCond := lit 1000, DtMin := lit 1, DtMax := lit 1,
    GridSize := ⟨64, 64, 64⟩, Dim := 3, FourthDim := false }

/-- The facts every normally running controller keeps in the IEEE model: a
timestep that is positive or NaN, a frame time that is non-negative or NaN,
and a positive `DtMin`. -/
def Running (f : FluidSolver) : Prop :=
  (f.Dt = .nan ∨ F64.lt (lit 0) f.Dt = true)
  ∧ (f.TimePerFrame = .nan ∨ F64.le (lit 0) f.TimePerFrame = true)
  ∧ F64.lt (lit 0) f.DtMin = true

/-- A controller whose frame counter is `2^53`, the last value below which
every integer is a `float64`, with `TimePerFrame = -2` and `Dt = 1`. -/
def roundedFrameSolver : FluidSolver :=
  { Dt := lit 1, LockDt := false, TimePerFrame := lit (-2), TimeTotal := lit 0, Frame := 2 ^ 53,
    FrameLength := lit 1, CflCond := lit 1000, DtMin := lit 1, DtMax := lit 1,
    GridSize := ⟨64, 64, 64⟩, Dim := 3, FourthDim := false }

/-- The controller of the NaN example: `Dt = CflCond = 1e200`, `DtMin = 0.1`,
`DtMax = 0.2`, `FrameLength = 1`. -/
def hugeSolver : FluidSolver :=
  { Dt := lit 1e200, LockDt := false, TimePerFrame := lit 0, TimeTotal := lit 0, Frame := 0,
    FrameLength := lit 1, CflCond := lit 1e200, DtMin := lit 0.1, DtMax := lit 0.2,
    GridSize := ⟨64, 64, 64⟩, Dim := 3, FourthDim := false }

/-- A controller early in a frame, far from the boundary: `TimePerFrame = 0`,
`FrameLength = 1`, `DtMin = 0.1`, `DtMax = 0.2`. -/
def cruisingSolver : FluidSolver :=
  { Dt := lit 0.1, LockDt := false, TimePerFrame := lit 0, TimeTotal := lit 0, Frame := 0,
    FrameLength := lit 1, CflCond := lit 1000, DtMin := lit 0.1, DtMax := lit 0.2,
    GridSize := ⟨64, 64, 64⟩, Dim := 3, FourthDim := false }

/-- The controller of the overshoot example: `TimePerFrame = 0.96`,
`FrameLength = 1`, with `DtMin = 0.05` and `DtMax = 0.5`. -/
def overshootSolver : FluidSolver :=
  { Dt := lit 0.1, LockDt := false, TimePerFrame := lit 0.96, TimeTotal := lit 0.96,
    Frame := 0, FrameLength := lit 1, CflCond := lit 1000, DtMin := lit 0.05,
    DtMax := lit 0.5, GridSize := ⟨64, 64, 64⟩, Dim := 3, FourthDim := false }

/-- A controller in the last frame a 64-bit `int` can count
(`Frame = 2^63 - 1`) whose accumulated frame time is negative, so that the
boundary test of `Step` fires. -/
def lastFrameSolver : FluidSolver :=
  { Dt := lit 1, LockDt := false, TimePerFrame := lit (-2), TimeTotal := lit 0,
    Frame := 2 ^ 63 - 1, FrameLength := lit 1, CflCond := lit 1000, DtMin := lit 1,
    DtMax := lit 1, GridSize := ⟨64, 64, 64⟩, Dim := 3, FourthDim := false }

/-- A controller whose accumulated frame time is negative (`TimePerFrame = -2`,
`Dt = 1`), locked, in frame 4, with `FrameLength = 0.1`. -/
def rewindSolver : FluidSolver :=
  { Dt := lit 1, LockDt := true, TimePerFrame := lit (-2), TimeTotal := lit 2, Frame := 4,
    FrameLength := lit 0.1, CflCond := lit 1000, DtMin := lit 1, DtMax := lit 1,
    GridSize := ⟨64, 64, 64⟩, Dim := 3, FourthDim := false }

/-- The fresh controller configured with `FrameLength = 0.8` and
`DtMin = DtMax = 0.1`: eight steps of `0.1` make up one frame. -/
def driftSolver : FluidSolver :=
  withConfig freshSolver (lit 0.8) (lit 1000) (lit 0.1) (lit 0.1)

end IEEE

/-! ## Unfolding lemmas for `AdaptTimestep` -/

namespace FluidSolver

theorem cflProposal_ge (f : FluidSolver) (maxVel : ℚ) :
    f.DtMin ≤ cflProposal f maxVel := by
  unfold cflProposal
  exact le_max_right _ _

theorem adaptBody_locked (f : FluidSolver) (maxVel : ℚ) (h : f.LockDt = true) :
    adaptBody f maxVel = f := by
  simp [adaptBody, h]

theorem adaptBody_snap (f : FluidSolver) (maxVel : ℚ) (h : f.LockDt = false)
    (hs : f.TimePerFrame + cflProposal f maxVel * 1.05 > f.FrameLength) :
    adaptBody f maxVel = { f with Dt := f.FrameLength - f.TimePerFrame + 1e-04 } := by
  simp only [adaptBody, h]
  simp [hs]

theorem adaptBody_split (f : FluidSolver) (maxVel : ℚ) (h : f.LockDt = false)
    (hs : ¬ f.TimePerFrame + cflProposal f maxVel * 1.05 > f.FrameLength)
    (hc : f.TimePerFrame + cflProposal f maxVel + f.DtMin > f.FrameLength
      ∨ f.TimePerFrame + cflProposal f maxVel * 1.25 > f.FrameLength) :
    adaptBody f maxVel =
      { f with Dt := (f.FrameLength - f.TimePerFrame + 1e-04) * 0.5, LockDt := true } := by
  simp only [adaptBody, h]
  simp only [Bool.not_false, if_true, if_neg hs, if_pos hc]

theorem adaptBody_keep (f : FluidSolver) (maxVel : ℚ) (h : f.LockDt = false)
    (hs : ¬ f.TimePerFrame + cflProposal f maxVel * 1.05 > f.FrameLength)
    (hc : ¬ (f.TimePerFrame + cflProposal f maxVel + f.DtMin > f.FrameLength
      ∨ f.TimePerFrame + cflProposal f maxVel * 1.25 > f.FrameLength)) :
    adaptBody f maxVel = { f with Dt := cflProposal f maxVel } := by
  simp only [adaptBody, h]
  simp only [Bool.not_false, if_true, if_neg hs, if_neg hc]

theorem adaptBody_DtMin (f : FluidSolver) (maxVel : ℚ) :
    (adaptBody f maxVel).DtMin = f.DtMin := by
  unfold adaptBody
  dsimp only
  split_ifs <;> rfl

theorem AdaptTimestep_fst (f : FluidSolver) (maxVel : ℚ) :
    (AdaptTimestep f maxVel).1 = adaptBody f maxVel := by
  unfold AdaptTimestep
  dsimp only
  split_ifs <;> rfl

theorem AdaptTimestep_snd (f : FluidSolver) (maxVel : ℚ) :
    (AdaptTimestep f maxVel).2 =
      if (adaptBody f maxVel).Dt ≤ f.DtMin / 2 then .panicked invalidDt else .returned := by
  unfold AdaptTimestep
  simp only [adaptBody_DtMin, invalidDt]
  split_ifs <;> rfl

theorem AdaptTimestep_returned_iff (f : FluidSolver) (maxVel : ℚ) :
    (AdaptTimestep f maxVel).2 = .returned ↔ f.DtMin / 2 < (AdaptTimestep f maxVel).1.Dt := by
  rw [AdaptTimestep_snd, AdaptTimestep_fst]
  split_ifs with h
  · exact ⟨fun e => e.elim, fun e => absurd h (not_le.mpr e)⟩
  · exact ⟨fun _ => not_le.mp h, fun _ => rfl⟩

theorem AdaptTimestep_panicked_iff (f : FluidSolver) (maxVel : ℚ) :
    (AdaptTimestep f maxVel).2 = .panicked invalidDt
      ↔ (AdaptTimestep f maxVel).1.Dt ≤ f.DtMin / 2 := by
  rw [AdaptTimestep_snd, AdaptTimestep_fst]
  split_ifs with h
  · exact ⟨fun _ => h, fun _ => rfl⟩
  · exact ⟨fun e => e.elim, fun e => absurd e h⟩

end FluidSolver

/-! ## Unfolding lemmas for `run` -/

theorem run_cons_returned (f g : FluidSolver) (c : Call) (cs : List Call)
    (h : c.exec f = (g, .returned)) : run f (c :: cs) = run g cs := by
  rw [run, h]

theorem run_cons_panicked (f g : FluidSolver) (c : Call) (cs : List Call) (msg : String)
    (h : c.exec f = (g, .panicked msg)) : run f (c :: cs) = (g, .panicked msg) := by
  rw [run, h]

/-! ## Lemmas on the default controller -/

theorem NewFluidSolver_ok_eq (gridSize : vec3 Int) (dim : Int) (fourthDim : Bool)
    (s : FluidSolver) (hs : NewFluidSolver gridSize dim fourthDim = .ok s) :
    s = { Dt := 1, LockDt := false, TimePerFrame := 0, TimeTotal := 0, Frame := 0,
          FrameLength := 1, CflCond := 1000, DtMin := 1, DtMax := 1,
          GridSize := gridSize, Dim := dim, FourthDim := fourthDim } := by
  unfold NewFluidSolver at hs
  split_ifs at hs
  injection hs with hs
  exact hs.symm

theorem NewFluidSolver_fresh : NewFluidSolver ⟨64, 64, 64⟩ 3 false = .ok freshSolver := by
  simp [NewFluidSolver, freshSolver]

/-- With `DtMin = DtMax` the clamp leaves no choice: the proposal is `DtMin`. -/
theorem FluidSolver.cflProposal_eq_of_min_eq_max (f : FluidSolver) (maxVel : ℚ)
    (h : f.DtMax = f.DtMin) : f.cflProposal maxVel = f.DtMin := by
  unfold FluidSolver.cflProposal
  dsimp only
  rw [h]
  exact max_eq_right (min_le_right _ _)

/-! ## The IEEE model: facts about rounding -/

namespace IEEE

theorem pow2_pos (e : Int) : 0 < pow2 e := by
  unfold pow2
  split_ifs
  · positivity
  · positivity

theorem rne_nonneg {x : ℚ} (hx : 0 ≤ x) : 0 ≤ rne x := by
  have hf : 0 ≤ ⌊x⌋ := Int.floor_nonneg.mpr hx
  unfold rne
  dsimp only
  split_ifs <;> omega

theorem roundMag_nonneg {a : ℚ} (ha : 0 ≤ a) : 0 ≤ roundMag a := by
  unfold roundMag
  dsimp only
  have hu := pow2_pos (max (binade a) (-1022) - 52)
  have hr : 0 ≤ rne (a / pow2 (max (binade a) (-1022) - 52)) :=
    rne_nonneg (div_nonneg ha hu.le)
  have hr2 : (0 : ℚ) ≤ (rne (a / pow2 (max (binade a) (-1022) - 52)) : ℚ) := by
    exact_mod_cast hr
  exact mul_nonneg hr2 hu.le

theorem round64_ne_nan (q : ℚ) : round64 q ≠ .nan := by
  unfold round64
  split_ifs <;> simp

/-- Rounding keeps the sign: a non-negative exact result rounds to `+Inf` or
to a non-negative finite number. -/
theorem round64_nonneg {q : ℚ} (hq : 0 ≤ q) :
    round64 q = .posInf ∨ ∃ r : ℚ, 0 ≤ r ∧ round64 q = .fin r := by
  unfold round64
  split_ifs with h0 hpos hov hov2
  · exact Or.inr ⟨0, le_refl 0, rfl⟩
  · exact Or.inl rfl
  · exact Or.inr ⟨_, roundMag_nonneg hq, rfl⟩
  · exact absurd (lt_of_le_of_ne hq (Ne.symm h0)) hpos
  · exact absurd (lt_of_le_of_ne hq (Ne.symm h0)) hpos

theorem lit_zero : lit 0 = .fin 0 := by
  unfold lit round64
  simp

namespace F64

theorem le_zero_of_nonneg_round {q : ℚ} (hq : 0 ≤ q) : le (lit 0) (round64 q) = true := by
  rw [lit_zero]
  rcases round64_nonneg hq with h | ⟨r, hr, h⟩
  · rw [h]
    rfl
  · rw [h]
    exact decide_eq_true hr

/-- `0 <= x` in the model: `x` is `+Inf` or a non-negative finite number. -/
theorem zero_le_iff (x : F64) :
    le (lit 0) x = true ↔ x = posInf ∨ ∃ r : ℚ, 0 ≤ r ∧ x = fin r := by
  rw [lit_zero]
  cases x with
  | nan => simp [le]
  | negInf => simp [le]
  | posInf => simp [le]
  | fin q => simp [le]

/-- `0 < x` in the model: `x` is `+Inf` or a positive finite number. -/
theorem zero_lt_iff (x : F64) :
    lt (lit 0) x = true ↔ x = posInf ∨ ∃ r : ℚ, 0 < r ∧ x = fin r := by
  rw [lit_zero]
  cases x with
  | nan => simp [lt]
  | negInf => simp [lt]
  | posInf => simp [lt]
  | fin q => simp [lt]

/-- The sum of a non-negative and a positive value is non-negative. -/
theorem add_nonneg {x y : F64} (hx : le (lit 0) x = true) (hy : lt (lit 0) y = true) :
    le (lit 0) (add x y) = true := by
  rcases (zero_le_iff x).mp hx with rfl | ⟨a, ha, rfl⟩
  · rcases (zero_lt_iff y).mp hy with rfl | ⟨b, _, rfl⟩
    · rw [lit_zero]; rfl
    · rw [lit_zero]; rfl
  · rcases (zero_lt_iff y).mp hy with rfl | ⟨b, hb, rfl⟩
    · rw [lit_zero]; rfl
    · exact le_zero_of_nonneg_round (by linarith)

/-- A value that is not below zero: `x < 0` is false for NaN and for every
non-negative value. -/
theorem not_lt_zero_of {x : F64} (h : x = nan ∨ le (lit 0) x = true) :
    lt x (lit 0) = false := by
  rw [lit_zero] at *
  rcases h with rfl | h
  · rfl
  · cases x with
    | nan => rfl
    | negInf => simp [le] at h
    | posInf => rfl
    | fin q =>
      simp only [le, decide_eq_true_eq] at h
      simp only [lt, decide_eq_false_iff_not, not_lt]
      exact h

theorem add_nan_left (y : F64) : add nan y = nan := by
  cases y <;> rfl

theorem add_nan_right (x : F64) : add x nan = nan := by
  cases x <;> rfl

/-- Half of a positive value is non-negative. -/
theorem half_nonneg {x : F64} (hx : lt (lit 0) x = true) :
    le (lit 0) (div x (lit 2)) = true := by
  have h2 : lit 2 = fin 2 := by decide!
  rw [h2]
  rcases (zero_lt_iff x).mp hx with rfl | ⟨a, ha, rfl⟩
  · rw [lit_zero]; rfl
  · have e : div (fin a) (fin 2) = round64 (a / 2) := by
      simp [div]
    rw [e]
    exact le_zero_of_nonneg_round (by linarith)

/-- A value not at most a non-negative bound is NaN or positive. -/
theorem pos_of_not_le {x h : F64} (hh : le (lit 0) h = true) (hx : le x h = false) :
    x = nan ∨ lt (lit 0) x = true := by
  rw [lit_zero] at *
  cases x with
  | nan => exact Or.inl rfl
  | negInf => cases h <;> simp [le] at hx hh
  | posInf => exact Or.inr rfl
  | fin q =>
    right
    cases h with
    | nan => simp [le] at hh
    | negInf => simp [le] at hh
    | posInf => simp [le] at hx
    | fin b =>
      simp only [le, decide_eq_true_eq, decide_eq_false_iff_not, not_le] at hx hh
      simp only [lt, decide_eq_true_eq]
      linarith

end F64

end IEEE

/-! ## The IEEE model: rounding is monotone -/

namespace IEEE

theorem pow2_eq_zpow (e : Int) : pow2 e = (2 : ℚ) ^ e := by
  unfold pow2
  split_ifs with h
  · obtain ⟨n, rfl⟩ := Int.eq_ofNat_of_zero_le h
    simp
  · have h2 : 0 ≤ -e := by omega
    obtain ⟨n, hn⟩ := Int.eq_ofNat_of_zero_le h2
    have he : e = -(n : Int) := by omega
    subst he
    simp

theorem pow2_le_pow2 {a b : Int} (h : a ≤ b) : pow2 a ≤ pow2 b := by
  rw [pow2_eq_zpow, pow2_eq_zpow]
  exact zpow_le_zpow_right₀ (by norm_num) h

theorem lt_of_pow2_lt_pow2 {a b : Int} (h : pow2 a < pow2 b) : a < b := by
  by_contra hn
  exact absurd (pow2_le_pow2 (not_lt.mp hn)) (not_le.mpr h)

theorem pow2_add (a b : Int) : pow2 (a + b) = pow2 a * pow2 b := by
  rw [pow2_eq_zpow, pow2_eq_zpow, pow2_eq_zpow]
  exact zpow_add₀ (by norm_num) a b

theorem log2Fuel_spec (fuel : Nat) : ∀ n : Nat, n ≤ fuel → n ≠ 0 →
    2 ^ log2Fuel fuel n ≤ n ∧ n < 2 ^ (log2Fuel fuel n + 1) := by
  induction fuel with
  | zero =>
    intro n hn h0
    omega
  | succ k ih =>
    intro n hn h0
    unfold log2Fuel
    split_ifs with h2
    · have : n = 1 := by omega
      subst this
      simp
    · have hk : n / 2 ≤ k := by omega
      have h1 : n / 2 ≠ 0 := by omega
      obtain ⟨i1, i2⟩ := ih (n / 2) hk h1
      constructor
      · rw [pow_succ]
        omega
      · rw [pow_succ]
        omega

theorem natLog2_spec (n : Nat) (h0 : n ≠ 0) :
    2 ^ natLog2 n ≤ n ∧ n < 2 ^ (natLog2 n + 1) :=
  log2Fuel_spec n n (le_refl n) h0

theorem pow2_bracket (n d : ℚ) (A B : Nat) (hd : 0 < d)
    (N1 : (2 : ℚ) ^ A ≤ n) (N2 : n < (2 : ℚ) ^ (A + 1))
    (D1 : (2 : ℚ) ^ B ≤ d) (D2 : d < (2 : ℚ) ^ (B + 1)) :
    pow2 ((A : Int) - (B : Int) - 1) ≤ n / d ∧ n / d < pow2 ((A : Int) - (B : Int) + 1) := by
  have hA : (0 : ℚ) < (2 : ℚ) ^ A := by positivity
  have hB : (0 : ℚ) < (2 : ℚ) ^ B := by positivity
  have hn : 0 < n := lt_of_lt_of_le hA N1
  constructor
  · rw [pow2_eq_zpow, zpow_sub₀ (by norm_num), zpow_sub₀ (by norm_num), zpow_natCast,
      zpow_natCast, zpow_one, div_div, div_le_div_iff₀ (by positivity) hd]
    have h2 : d ≤ (2 : ℚ) ^ B * 2 := by
      rw [← pow_succ]
      exact D2.le
    calc (2 : ℚ) ^ A * d
        ≤ (2 : ℚ) ^ A * ((2 : ℚ) ^ B * 2) := mul_le_mul_of_nonneg_left h2 hA.le
      _ ≤ n * ((2 : ℚ) ^ B * 2) := mul_le_mul_of_nonneg_right N1 (by positivity)
  · rw [pow2_eq_zpow, zpow_add₀ (by norm_num), zpow_sub₀ (by norm_num), zpow_natCast,
      zpow_natCast, zpow_one, div_mul_eq_mul_div, div_lt_div_iff₀ hd hB]
    have h2 : n < (2 : ℚ) ^ A * 2 := by
      rw [← pow_succ]
      exact N2
    calc n * (2 : ℚ) ^ B
        ≤ n * d := mul_le_mul_of_nonneg_left D1 hn.le
      _ < (2 : ℚ) ^ A * 2 * d := mul_lt_mul_of_pos_right h2 hd

/-- The exponent computed by `binade` brackets a positive rational:
`2^e <= a < 2^(e+1)`. -/
theorem binade_spec (a : ℚ) (ha : 0 < a) :
    pow2 (binade a) ≤ a ∧ a < pow2 (binade a + 1) := by
  have hnum : 0 < a.num := Rat.num_pos.mpr ha
  have hden : 0 < a.den := a.den_pos
  obtain ⟨n1, n2⟩ := natLog2_spec a.num.natAbs (by omega)
  obtain ⟨d1, d2⟩ := natLog2_spec a.den (by omega)
  have hn : (a.num.natAbs : ℚ) = (a.num : ℚ) := by
    rw [Nat.cast_natAbs, abs_of_pos hnum]
  have ha_eq : (a.num.natAbs : ℚ) / (a.den : ℚ) = a := by
    rw [hn]
    exact Rat.num_div_den a
  have hdq : (0 : ℚ) < (a.den : ℚ) := by exact_mod_cast hden
  have N1 : (2 : ℚ) ^ (natLog2 a.num.natAbs) ≤ (a.num.natAbs : ℚ) := by exact_mod_cast n1
  have N2 : (a.num.natAbs : ℚ) < (2 : ℚ) ^ (natLog2 a.num.natAbs + 1) := by exact_mod_cast n2
  have D1 : (2 : ℚ) ^ (natLog2 a.den) ≤ (a.den : ℚ) := by exact_mod_cast d1
  have D2 : (a.den : ℚ) < (2 : ℚ) ^ (natLog2 a.den + 1) := by exact_mod_cast d2
  obtain ⟨lo, up⟩ := pow2_bracket _ _ _ _ hdq N1 N2 D1 D2
  rw [ha_eq] at lo up
  unfold binade
  dsimp only
  split_ifs with h
  · exact ⟨h, up⟩
  · refine ⟨lo, ?_⟩
    have e : (natLog2 a.num.natAbs : Int) - (natLog2 a.den : Int) - 1 + 1
        = (natLog2 a.num.natAbs : Int) - (natLog2 a.den : Int) := by ring
    rw [e]
    exact not_le.mp h

theorem binade_mono {a b : ℚ} (ha : 0 < a) (hab : a ≤ b) : binade a ≤ binade b := by
  obtain ⟨a1, -⟩ := binade_spec a ha
  obtain ⟨-, b2⟩ := binade_spec b (lt_of_lt_of_le ha hab)
  have : pow2 (binade a) < pow2 (binade b + 1) := lt_of_le_of_lt (le_trans a1 hab) b2
  have := lt_of_pow2_lt_pow2 this
  omega

theorem floor_le_rne (x : ℚ) : ⌊x⌋ ≤ rne x := by
  unfold rne
  dsimp only
  split_ifs <;> omega

theorem rne_le_floor_succ (x : ℚ) : rne x ≤ ⌊x⌋ + 1 := by
  unfold rne
  dsimp only
  split_ifs <;> omega

theorem int_le_rne {n : Int} {x : ℚ} (h : (n : ℚ) ≤ x) : n ≤ rne x :=
  le_trans (Int.le_floor.mpr h) (floor_le_rne x)

theorem rne_le_int {n : Int} {x : ℚ} (h : x ≤ (n : ℚ)) : rne x ≤ n := by
  have hf : ⌊x⌋ ≤ n := by
    have := Int.floor_mono h
    rwa [Int.floor_intCast] at this
  rcases lt_or_eq_of_le hf with hlt | heq
  · have := rne_le_floor_succ x
    omega
  · have hx : x = (n : ℚ) := by
      have h1 : ((⌊x⌋ : Int) : ℚ) ≤ x := Int.floor_le x
      rw [heq] at h1
      exact le_antisymm h h1
    subst hx
    unfold rne
    simp

theorem rne_mono {x y : ℚ} (h : x ≤ y) : rne x ≤ rne y := by
  have hf : ⌊x⌋ ≤ ⌊y⌋ := Int.floor_mono h
  rcases lt_or_eq_of_le hf with hlt | heq
  · have h1 := rne_le_floor_succ x
    have h2 := floor_le_rne y
    omega
  · have hd : x - (⌊x⌋ : ℚ) ≤ y - (⌊y⌋ : ℚ) := by
      rw [heq]
      linarith
    unfold rne
    dsimp only
    rw [heq] at hd ⊢
    split_ifs <;> first | omega | linarith

end IEEE

namespace IEEE

theorem pow2_shift (e : Int) : pow2 (e + 1) = ((2 ^ 53 : Int) : ℚ) * pow2 (e - 52) := by
  have h : e + 1 = 53 + (e - 52) := by ring
  rw [h, pow2_add]
  have : pow2 53 = ((2 ^ 53 : Int) : ℚ) := by
    rw [pow2_eq_zpow]
    norm_num
  rw [this]

theorem pow2_shift52 (e : Int) : pow2 e = ((2 ^ 52 : Int) : ℚ) * pow2 (e - 52) := by
  have h : e = 52 + (e - 52) := by ring
  nth_rewrite 1 [h]
  rw [pow2_add]
  have : pow2 52 = ((2 ^ 52 : Int) : ℚ) := by
    rw [pow2_eq_zpow]
    norm_num
  rw [this]

/-- The rounded magnitude stays inside the closed binade. -/
theorem roundMag_le (a : ℚ) (ha : 0 < a) :
    roundMag a ≤ pow2 (max (binade a) (-1022) + 1) := by
  obtain ⟨-, h2⟩ := binade_spec a ha
  have hu := pow2_pos (max (binade a) (-1022) - 52)
  have h3 : a ≤ pow2 (max (binade a) (-1022) + 1) :=
    le_trans h2.le (pow2_le_pow2 (by omega))
  rw [pow2_shift] at h3 ⊢
  have h4 : a / pow2 (max (binade a) (-1022) - 52) ≤ ((2 ^ 53 : Int) : ℚ) := by
    rw [div_le_iff₀ hu]
    exact h3
  have h5 := rne_le_int h4
  unfold roundMag
  dsimp only
  have h6 : (rne (a / pow2 (max (binade a) (-1022) - 52)) : ℚ) ≤ ((2 ^ 53 : Int) : ℚ) := by
    exact_mod_cast h5
  exact mul_le_mul_of_nonneg_right h6 hu.le

theorem le_roundMag (a : ℚ) (ha : 0 < a) (hb : -1022 ≤ binade a) :
    pow2 (binade a) ≤ roundMag a := by
  obtain ⟨h1, -⟩ := binade_spec a ha
  have hm : max (binade a) (-1022) = binade a := max_eq_left hb
  have hu := pow2_pos (binade a - 52)
  rw [pow2_shift52] at h1 ⊢
  have h4 : ((2 ^ 52 : Int) : ℚ) ≤ a / pow2 (binade a - 52) := by
    rw [le_div_iff₀ hu]
    exact h1
  have h5 := int_le_rne h4
  unfold roundMag
  dsimp only
  rw [hm]
  have h6 : ((2 ^ 52 : Int) : ℚ) ≤ (rne (a / pow2 (binade a - 52)) : ℚ) := by
    exact_mod_cast h5
  exact mul_le_mul_of_nonneg_right h6 hu.le

theorem roundMag_mono {a b : ℚ} (ha : 0 < a) (hab : a ≤ b) : roundMag a ≤ roundMag b := by
  have hb : 0 < b := lt_of_lt_of_le ha hab
  have hbin := binade_mono ha hab
  rcases lt_or_eq_of_le (max_le_max hbin (le_refl (-1022 : Int))) with hlt | heq
  · have hb2 : -1022 ≤ binade b := by
      by_contra hn
      have : max (binade b) (-1022) = -1022 := max_eq_right (by omega)
      rw [this] at hlt
      have := le_max_right (binade a) (-1022)
      omega
    have hmb : max (binade b) (-1022) = binade b := max_eq_left hb2
    rw [hmb] at hlt
    calc roundMag a ≤ pow2 (max (binade a) (-1022) + 1) := roundMag_le a ha
      _ ≤ pow2 (binade b) := pow2_le_pow2 (by omega)
      _ ≤ roundMag b := le_roundMag b hb hb2
  · unfold roundMag
    dsimp only
    rw [heq]
    have hu := pow2_pos (max (binade b) (-1022) - 52)
    have h1 : a / pow2 (max (binade b) (-1022) - 52) ≤ b / pow2 (max (binade b) (-1022) - 52) :=
      div_le_div_of_nonneg_right hab hu.le
    have h2 := rne_mono h1
    have h3 : (rne (a / pow2 (max (binade b) (-1022) - 52)) : ℚ)
        ≤ (rne (b / pow2 (max (binade b) (-1022) - 52)) : ℚ) := by
      exact_mod_cast h2
    exact mul_le_mul_of_nonneg_right h3 hu.le

theorem round64_of_pos {q : ℚ} (hq : 0 < q) :
    round64 q = if pow2 1024 ≤ roundMag q then .posInf else .fin (roundMag q) := by
  unfold round64
  rw [if_neg hq.ne.symm, if_pos hq]

theorem round64_of_neg {q : ℚ} (hq : q < 0) :
    round64 q = if pow2 1024 ≤ roundMag (-q) then .negInf else .fin (-roundMag (-q)) := by
  unfold round64
  rw [if_neg hq.ne, if_neg (not_lt.mpr hq.le)]

theorem round64_nonpos {q : ℚ} (hq : q ≤ 0) :
    round64 q = .negInf ∨ ∃ r : ℚ, r ≤ 0 ∧ round64 q = .fin r := by
  rcases lt_or_eq_of_le hq with h | h
  · rw [round64_of_neg h]
    split_ifs
    · exact Or.inl rfl
    · exact Or.inr ⟨_, neg_nonpos.mpr (roundMag_nonneg (by linarith)), rfl⟩
  · subst h
    exact Or.inr ⟨0, le_refl 0, by simp [round64]⟩

/-- Rounding is monotone. -/
theorem round64_mono {q1 q2 : ℚ} (h : q1 ≤ q2) :
    F64.le (round64 q1) (round64 q2) = true := by
  rcases lt_trichotomy 0 q1 with h1 | h1 | h1
  · -- both positive
    have h2 : 0 < q2 := lt_of_lt_of_le h1 h
    have hm := roundMag_mono h1 h
    rw [round64_of_pos h1, round64_of_pos h2]
    split_ifs with a b b
    · rfl
    · exact absurd (le_trans a hm) b
    · rfl
    · simp only [F64.le, decide_eq_true_eq]
      exact hm
  · -- q1 = 0
    subst h1
    exact F64.le_zero_of_nonneg_round h |> fun e => by
      have : round64 0 = lit 0 := rfl
      rw [this]
      exact e
  · rcases lt_or_le q2 0 with h2 | h2
    · -- both negative
      have hm : roundMag (-q2) ≤ roundMag (-q1) := roundMag_mono (by linarith) (by linarith)
      rw [round64_of_neg h1, round64_of_neg h2]
      split_ifs with a b b
      · rfl
      · rfl
      · exact absurd (le_trans b hm) a
      · simp only [F64.le, decide_eq_true_eq]
        linarith
    · -- q1 negative, q2 non-negative
      rcases round64_nonpos h1.le with e1 | ⟨r1, hr1, e1⟩ <;>
        rcases round64_nonneg h2 with e2 | ⟨r2, hr2, e2⟩ <;>
        rw [e1, e2] <;> simp [F64.le]
      linarith

end IEEE

/-! ## The IEEE model: the clamp -/

namespace IEEE

theorem mathMin_fin_fin (a b : ℚ) : mathMin (.fin a) (.fin b) = .fin (min a b) := by
  show (if F64.lt (.fin a) (.fin b) = true then F64.fin a else F64.fin b) = _
  by_cases h : a < b
  · rw [if_pos (by simpa [F64.lt] using h), min_eq_left h.le]
  · rw [if_neg (by simpa [F64.lt] using h), min_eq_right (not_lt.mp h)]

theorem mathMax_fin_fin (a b : ℚ) : mathMax (.fin a) (.fin b) = .fin (max a b) := by
  show (if F64.gt (.fin a) (.fin b) = true then F64.fin a else F64.fin b) = _
  by_cases h : b < a
  · rw [if_pos (by simpa [F64.gt, F64.lt] using h), max_eq_left h.le]
  · rw [if_neg (by simpa [F64.gt, F64.lt] using h), max_eq_right (not_lt.mp h)]

/-- The clamp `math.Max(math.Min(q, hi), lo)` with `lo <= hi`: the result is
NaN or lies in `[lo, hi]`; it lies in `[lo, hi]` whenever `q` is not NaN; and
it is NaN only when `q` is. -/
theorem clamp64_bounds (q lo hi : F64) (h : F64.le lo hi = true) :
    (mathMax (mathMin q hi) lo = .nan
      ∨ (F64.le lo (mathMax (mathMin q hi) lo) = true
        ∧ F64.le (mathMax (mathMin q hi) lo) hi = true))
    ∧ (q ≠ .nan → F64.le lo (mathMax (mathMin q hi) lo) = true
        ∧ F64.le (mathMax (mathMin q hi) lo) hi = true)
    ∧ (mathMax (mathMin q hi) lo = .nan → q = .nan) := by
  cases hi with
  | nan => cases lo <;> simp [F64.le] at h
  | negInf =>
    cases lo <;> simp [F64.le] at h
    cases q <;> simp [mathMin, mathMax, F64.le]
  | posInf =>
    cases lo with
    | nan => simp [F64.le] at h
    | negInf => cases q <;> simp [mathMin, mathMax, F64.le, F64.lt, F64.gt]
    | posInf => cases q <;> simp [mathMin, mathMax, F64.le, F64.lt, F64.gt]
    | fin l =>
      cases q with
      | nan => simp [mathMin, mathMax, F64.le, F64.lt, F64.gt]
      | negInf => simp [mathMin, mathMax, F64.le, F64.lt, F64.gt]
      | posInf => simp [mathMin, mathMax, F64.le, F64.lt, F64.gt]
      | fin a =>
        have e : mathMin (.fin a) .posInf = .fin a := by
          simp [mathMin, F64.lt]
        rw [e, mathMax_fin_fin]
        simp [F64.le]
  | fin u =>
    cases lo with
    | nan => simp [F64.le] at h
    | posInf => simp [F64.le] at h
    | negInf =>
      cases q with
      | nan => simp [mathMin, mathMax, F64.le, F64.lt, F64.gt]
      | negInf => simp [mathMin, mathMax, F64.le, F64.lt, F64.gt]
      | posInf =>
        have e : mathMin .posInf (.fin u) = .fin u := by
          simp [mathMin, F64.lt]
        have e2 : mathMax (.fin u) .negInf = .fin u := by
          simp [mathMax, F64.lt, F64.gt]
        rw [e, e2]
        simp [F64.le]
      | fin a =>
        have e2 : ∀ x : ℚ, mathMax (.fin x) .negInf = .fin x := by
          intro x
          simp [mathMax, F64.lt, F64.gt]
        rw [mathMin_fin_fin, e2]
        simp [F64.le]
    | fin l =>
      have hlu : l ≤ u := by simpa [F64.le] using h
      cases q with
      | nan => simp [mathMin, mathMax, F64.le, F64.lt, F64.gt]
      | negInf =>
        have e : mathMax .negInf (.fin l) = .fin l := by
          simp [mathMax, F64.lt, F64.gt]
        have e0 : mathMin .negInf (.fin u) = .negInf := by
          simp [mathMin]
        rw [e0, e]
        simp [F64.le, hlu]
      | posInf =>
        have e : mathMin .posInf (.fin u) = .fin u := by
          simp [mathMin, F64.lt]
        rw [e, mathMax_fin_fin]
        simp [F64.le, hlu]
      | fin a =>
        rw [mathMin_fin_fin, mathMax_fin_fin]
        simp [F64.le, hlu]

theorem F64.lt_of_lt_of_le64 {a b c : F64} (h1 : F64.lt a b = true) (h2 : F64.le b c = true) :
    F64.lt a c = true := by
  cases a <;> cases b <;> cases c <;> simp [F64.le, F64.lt] at h1 h2 ⊢
  linarith

theorem F64.gt_of_not_le64 {x h : F64} (hh : h ≠ .nan) (hx : F64.le x h = false) :
    x = .nan ∨ F64.lt h x = true := by
  cases x <;> cases h <;> simp [F64.le, F64.lt] at hx hh ⊢
  exact hx

end IEEE

/-! ## The IEEE model: unfolding lemmas for the controller -/

namespace IEEE

theorem adaptBody64_locked (f : FluidSolver) (maxVel : F64) (h : f.LockDt = true) :
    f.adaptBody maxVel = f := by
  simp [FluidSolver.adaptBody, h]

theorem adaptBody64_snap (f : FluidSolver) (maxVel : F64) (h : f.LockDt = false)
    (hs : FluidSolver.snapTest { f with Dt := f.cflProposal maxVel } = true) :
    f.adaptBody maxVel
      = { f with Dt := F64.add (F64.sub f.FrameLength f.TimePerFrame) (lit 1e-04) } := by
  simp only [h] at hs
  simp only [FluidSolver.adaptBody, h]
  simp [hs]

theorem adaptBody64_split (f : FluidSolver) (maxVel : F64) (h : f.LockDt = false)
    (hs : FluidSolver.snapTest { f with Dt := f.cflProposal maxVel } = false)
    (hc : FluidSolver.splitTest { f with Dt := f.cflProposal maxVel } = true) :
    f.adaptBody maxVel
      = { f with
          Dt := F64.mul (F64.add (F64.sub f.FrameLength f.TimePerFrame) (lit 1e-04)) (lit 0.5)
          LockDt := true } := by
  simp only [h] at hs hc
  simp only [FluidSolver.adaptBody, h]
  simp [hs, hc]

theorem adaptBody64_keep (f : FluidSolver) (maxVel : F64) (h : f.LockDt = false)
    (hs : FluidSolver.snapTest { f with Dt := f.cflProposal maxVel } = false)
    (hc : FluidSolver.splitTest { f with Dt := f.cflProposal maxVel } = false) :
    f.adaptBody maxVel = { f with Dt := f.cflProposal maxVel } := by
  simp only [h] at hs hc
  simp only [FluidSolver.adaptBody, h]
  simp [hs, hc]

theorem adaptBody64_frame_eq (f : FluidSolver) (maxVel : F64) :
    f.adaptBody maxVel
      = { f with Dt := (f.adaptBody maxVel).Dt, LockDt := (f.adaptBody maxVel).LockDt } := by
  unfold FluidSolver.adaptBody
  dsimp only
  split_ifs <;> rfl

theorem AdaptTimestep64_fst (f : FluidSolver) (maxVel : F64) :
    (f.AdaptTimestep maxVel).1 = f.adaptBody maxVel := by
  unfold FluidSolver.AdaptTimestep
  dsimp only
  split_ifs <;> rfl

theorem AdaptTimestep64_snd (f : FluidSolver) (maxVel : F64) :
    (f.AdaptTimestep maxVel).2 =
      if F64.le (f.adaptBody maxVel).Dt (F64.div f.DtMin (lit 2)) = true then
        .panicked invalidDt else .returned := by
  have e : (f.adaptBody maxVel).DtMin = f.DtMin := by
    rw [adaptBody64_frame_eq]
  unfold FluidSolver.AdaptTimestep
  simp only [e, invalidDt]
  split_ifs <;> rfl

theorem AdaptTimestep64_eq_returned (f : FluidSolver) (maxVel : F64)
    (h : F64.le (f.adaptBody maxVel).Dt (F64.div f.DtMin (lit 2)) = false) :
    f.AdaptTimestep maxVel = (f.adaptBody maxVel, .returned) := by
  refine Prod.ext (AdaptTimestep64_fst f maxVel) ?_
  rw [AdaptTimestep64_snd, if_neg (by simp [h])]

theorem AdaptTimestep64_eq_panicked (f : FluidSolver) (maxVel : F64)
    (h : F64.le (f.adaptBody maxVel).Dt (F64.div f.DtMin (lit 2)) = true) :
    f.AdaptTimestep maxVel = (f.adaptBody maxVel, .panicked invalidDt) := by
  refine Prod.ext (AdaptTimestep64_fst f maxVel) ?_
  rw [AdaptTimestep64_snd, if_pos h]

theorem AdaptTimestep64_returned_iff (f : FluidSolver) (maxVel : F64) :
    (f.AdaptTimestep maxVel).2 = .returned
      ↔ F64.le (f.AdaptTimestep maxVel).1.Dt (F64.div f.DtMin (lit 2)) = false := by
  rw [AdaptTimestep64_snd, AdaptTimestep64_fst]
  split_ifs with h
  · simp [h]
  · simp at h
    simp [h]

theorem Step64_of_not_lt (f : FluidSolver)
    (h : F64.lt (F64.add f.TimePerFrame f.Dt) (lit VectorEpsilon) = false) :
    f.Step = { f with
      TimePerFrame := F64.add f.TimePerFrame f.Dt
      TimeTotal := F64.add f.TimeTotal f.Dt } := by
  unfold FluidSolver.Step
  dsimp only
  rw [if_neg (by simp [h])]

theorem Step64_of_lt (f : FluidSolver)
    (h : F64.lt (F64.add f.TimePerFrame f.Dt) (lit VectorEpsilon) = true) :
    f.Step = { f with
      TimePerFrame := lit 0
      TimeTotal := F64.mul (ofInt (wrapInt64 (f.Frame + 1))) f.FrameLength
      Frame := wrapInt64 (f.Frame + 1)
      LockDt := false } := by
  unfold FluidSolver.Step
  dsimp only
  rw [if_pos h]

theorem run64_nil (f : FluidSolver) : run f [] = (f, .returned) := by
  rw [run]

theorem run64_step (f : FluidSolver) (cs : List Call) :
    run f (.step :: cs) = run f.Step cs := by
  rw [run]
  rfl

theorem run64_adapt_returned (f : FluidSolver) (maxVel : F64) (cs : List Call)
    (h : F64.le (f.adaptBody maxVel).Dt (F64.div f.DtMin (lit 2)) = false) :
    run f (.adapt maxVel :: cs) = run (f.adaptBody maxVel) cs := by
  have e : (Call.adapt maxVel).exec f = (f.adaptBody maxVel, .returned) :=
    AdaptTimestep64_eq_returned f maxVel h
  rw [run, e]

theorem run64_adapt_panicked (f : FluidSolver) (maxVel : F64) (cs : List Call)
    (h : F64.le (f.adaptBody maxVel).Dt (F64.div f.DtMin (lit 2)) = true) :
    run f (.adapt maxVel :: cs) = (f.adaptBody maxVel, .panicked invalidDt) := by
  have e : (Call.adapt maxVel).exec f = (f.adaptBody maxVel, .panicked invalidDt) :=
    AdaptTimestep64_eq_panicked f maxVel h
  rw [run, e]

theorem NewFluidSolver64_ok_eq (gridSize : vec3 Int) (dim : Int) (fourthDim : Bool)
    (s : FluidSolver) (hs : NewFluidSolver gridSize dim fourthDim = .ok s) :
    s = { Dt := lit 1, LockDt := false, TimePerFrame := lit 0, TimeTotal := lit 0, Frame := 0,
          FrameLength := lit 1, CflCond := lit 1000, DtMin := lit 1, DtMax := lit 1,
          GridSize := gridSize, Dim := dim, FourthDim := fourthDim } := by
  unfold NewFluidSolver at hs
  split_ifs at hs
  injection hs with hs
  exact hs.symm

theorem NewFluidSolver64_fresh :
    NewFluidSolver ⟨64, 64, 64⟩ 3 false = .ok freshSolver := by
  simp [NewFluidSolver, freshSolver]

/-! ## The IEEE model: the invariant of normal runs -/

theorem Running.step64 {f : FluidSolver} (h : Running f) :
    F64.lt (F64.add f.TimePerFrame f.Dt) (lit VectorEpsilon) = false
    ∧ f.Step = { f with
        TimePerFrame := F64.add f.TimePerFrame f.Dt
        TimeTotal := F64.add f.TimeTotal f.Dt }
    ∧ Running f.Step := by
  obtain ⟨h1, h2, h3⟩ := h
  have hsum : F64.add f.TimePerFrame f.Dt = .nan
      ∨ F64.le (lit 0) (F64.add f.TimePerFrame f.Dt) = true := by
    rcases h2 with h2 | h2
    · left
      rw [h2]
      exact F64.add_nan_left _
    · rcases h1 with h1 | h1
      · left
        rw [h1]
        exact F64.add_nan_right _
      · right
        exact F64.add_nonneg h2 h1
  have hv : lit VectorEpsilon = lit 0 := by
    unfold VectorEpsilon
    rfl
  have hn : F64.lt (F64.add f.TimePerFrame f.Dt) (lit VectorEpsilon) = false := by
    rw [hv]
    exact F64.not_lt_zero_of hsum
  have e := Step64_of_not_lt f hn
  refine ⟨hn, e, ?_⟩
  rw [e]
  exact ⟨h1, hsum, h3⟩

theorem Running.adapt64 {f : FluidSolver} (h : Running f) (maxVel : F64)
    (hr : F64.le (f.adaptBody maxVel).Dt (F64.div f.DtMin (lit 2)) = false) :
    Running (f.adaptBody maxVel) := by
  obtain ⟨-, h2, h3⟩ := h
  have e := adaptBody64_frame_eq f maxVel
  refine ⟨F64.pos_of_not_le (F64.half_nonneg h3) hr, ?_, ?_⟩
  · rw [e]
    exact h2
  · rw [e]
    exact h3

/-- From a running controller: no run changes `Frame`; a run that returns
ends in a running controller; and a lock, once set, stays set with `Dt`
frozen. -/
theorem run64_of_running (cs : List Call) : ∀ f : FluidSolver, Running f →
    (run f cs).1.Frame = f.Frame
    ∧ ((run f cs).2 = .returned → Running (run f cs).1)
    ∧ (f.LockDt = true → (run f cs).1.LockDt = true ∧ (run f cs).1.Dt = f.Dt) := by
  induction cs with
  | nil =>
    intro f hf
    rw [run64_nil]
    exact ⟨rfl, fun _ => hf, fun hl => ⟨hl, rfl⟩⟩
  | cons c cs ih =>
    intro f hf
    cases c with
    | step =>
      rw [run64_step]
      obtain ⟨-, e, hs⟩ := hf.step64
      obtain ⟨i1, i4, i5⟩ := ih f.Step hs
      have eF : f.Step.Frame = f.Frame := by rw [e]
      have eL : f.Step.LockDt = f.LockDt := by rw [e]
      have eD : f.Step.Dt = f.Dt := by rw [e]
      refine ⟨by rw [i1, eF], i4, ?_⟩
      intro hl
      have := i5 (by rw [eL]; exact hl)
      rw [eD] at this
      exact this
    | adapt maxVel =>
      have e := adaptBody64_frame_eq f maxVel
      have eF : (f.adaptBody maxVel).Frame = f.Frame := by rw [e]
      cases h : F64.le (f.adaptBody maxVel).Dt (F64.div f.DtMin (lit 2)) with
      | true =>
        rw [run64_adapt_panicked f maxVel cs h]
        refine ⟨eF, fun hr => Outcome.noConfusion hr, ?_⟩
        intro hl
        rw [adaptBody64_locked f maxVel hl]
        exact ⟨hl, rfl⟩
      | false =>
        rw [run64_adapt_returned f maxVel cs h]
        obtain ⟨i1, i4, i5⟩ := ih (f.adaptBody maxVel) (hf.adapt64 maxVel h)
        refine ⟨by rw [i1, eF], i4, ?_⟩
        intro hl
        have eq := adaptBody64_locked f maxVel hl
        rw [eq] at i5
        rw [eq]
        exact i5 hl

end IEEE

/-! ## The IEEE model: the operations are monotone -/

namespace IEEE

namespace F64

theorem le_negInf_left {z : F64} (hz : z ≠ nan) : le negInf z = true := by
  cases z <;> simp [le] at hz ⊢

theorem le_posInf_right {z : F64} (hz : z ≠ nan) : le z posInf = true := by
  cases z <;> simp [le] at hz ⊢

/-- Adding a finite value is monotone. -/
theorem add_fin_mono (c : ℚ) {x y : F64} (h : le x y = true) :
    le (add x (fin c)) (add y (fin c)) = true := by
  cases x with
  | nan => simp [le] at h
  | negInf =>
    have e : add negInf (fin c) = negInf := rfl
    rw [e]
    apply le_negInf_left
    cases y with
    | nan => simp [le] at h
    | negInf => simp [add]
    | posInf => simp [add]
    | fin b => exact round64_ne_nan _
  | posInf =>
    cases y <;> simp [le] at h
    rfl
  | fin a =>
    cases y with
    | nan => simp [le] at h
    | negInf => simp [le] at h
    | posInf =>
      have e : add posInf (fin c) = posInf := rfl
      rw [e]
      exact le_posInf_right (round64_ne_nan _)
    | fin b =>
      have hab : a ≤ b := by simpa [le] using h
      exact round64_mono (by linarith)

/-- Multiplying by a positive finite value is monotone. -/
theorem mul_fin_mono {d : ℚ} (hd : 0 < d) {x y : F64} (h : le x y = true) :
    le (mul x (fin d)) (mul y (fin d)) = true := by
  have eP : mul posInf (fin d) = posInf := by
    simp [mul, hd.ne.symm, hd]
  have eN : mul negInf (fin d) = negInf := by
    simp [mul, hd.ne.symm, hd]
  cases x with
  | nan => simp [le] at h
  | negInf =>
    rw [eN]
    apply le_negInf_left
    cases y with
    | nan => simp [le] at h
    | negInf => rw [eN]; simp
    | posInf => rw [eP]; simp
    | fin b => exact round64_ne_nan _
  | posInf =>
    cases y <;> simp [le] at h
    rw [eP]
    rfl
  | fin a =>
    cases y with
    | nan => simp [le] at h
    | negInf => simp [le] at h
    | posInf =>
      rw [eP]
      exact le_posInf_right (round64_ne_nan _)
    | fin b =>
      have hab : a ≤ b := by simpa [le] using h
      exact round64_mono (mul_le_mul_of_nonneg_right hab hd.le)

theorem form_of_fin_le {c : ℚ} {x : F64} (h : le (fin c) x = true) :
    x = posInf ∨ ∃ b : ℚ, c ≤ b ∧ x = fin b := by
  cases x with
  | nan => simp [le] at h
  | negInf => simp [le] at h
  | posInf => exact Or.inl rfl
  | fin b => exact Or.inr ⟨b, by simpa [le] using h, rfl⟩

/-- A non-negative numerator over a growing positive divisor: the quotient by
the larger divisor is NaN, or non-negative and at most the other quotient. -/
theorem div_antitone {N D1 D2 : F64} {c : ℚ} (hc : 0 < c) (hN : le (lit 0) N = true)
    (h1 : le (fin c) D1 = true) (h12 : le D1 D2 = true) :
    div N D2 = nan
      ∨ (le (lit 0) (div N D2) = true ∧ le (div N D2) (div N D1) = true) := by
  rcases form_of_fin_le h1 with rfl | ⟨b1, hb1, rfl⟩
  · -- D1 = +Inf, so D2 = +Inf
    have : D2 = posInf := by
      cases D2 <;> simp [le] at h12
      rfl
    subst this
    rcases (zero_le_iff N).mp hN with rfl | ⟨a, ha, rfl⟩
    · exact Or.inl rfl
    · right
      have e : div (fin a) posInf = fin 0 := rfl
      rw [e, lit_zero]
      simp [le]
  · have hb1pos : 0 < b1 := lt_of_lt_of_le hc hb1
    rcases form_of_fin_le h12 with rfl | ⟨b2, hb2, rfl⟩
    · rcases (zero_le_iff N).mp hN with rfl | ⟨a, ha, rfl⟩
      · exact Or.inl rfl
      · right
        have e : div (fin a) posInf = fin 0 := rfl
        have e1 : div (fin a) (fin b1) = round64 (a / b1) := by
          simp [div, hb1pos.ne.symm]
        rw [e, e1]
        refine ⟨by rw [lit_zero]; simp [le], ?_⟩
        have := le_zero_of_nonneg_round (div_nonneg ha hb1pos.le)
        rw [lit_zero] at this
        exact this
    · have hb2pos : 0 < b2 := lt_of_lt_of_le hb1pos hb2
      rcases (zero_le_iff N).mp hN with rfl | ⟨a, ha, rfl⟩
      · right
        have e1 : div posInf (fin b1) = posInf := by
          simp [div, hb1pos.le]
        have e2 : div posInf (fin b2) = posInf := by
          simp [div, hb2pos.le]
        rw [e1, e2, lit_zero]
        simp [le]
      · right
        have e1 : div (fin a) (fin b1) = round64 (a / b1) := by
          simp [div, hb1pos.ne.symm]
        have e2 : div (fin a) (fin b2) = round64 (a / b2) := by
          simp [div, hb2pos.ne.symm]
        rw [e1, e2]
        exact ⟨le_zero_of_nonneg_round (div_nonneg ha hb2pos.le),
          round64_mono (div_le_div_of_nonneg_left ha hb1pos hb2)⟩

end F64

theorem lit_1em5 : lit 1e-05 = .fin (5902958103587057 / 2 ^ 69) := by
  decide!

/-- The `float64` quotient of line 61 does not grow with the velocity: for
`Dt > 0`, `CflCond > 0` and `0 <= v1 <= v2` the quotient at `v2` is NaN, or is
non-negative and at most the quotient at `v1`. -/
theorem cflRaw64_antitone (f : FluidSolver) (v1 v2 : F64)
    (hDt : F64.lt (lit 0) f.Dt = true) (hC : F64.lt (lit 0) f.CflCond = true)
    (h1 : F64.le (lit 0) v1 = true) (h12 : F64.le v1 v2 = true) :
    f.cflRaw v2 = .nan
      ∨ (F64.le (lit 0) (f.cflRaw v2) = true
        ∧ F64.le (f.cflRaw v2) (f.cflRaw v1) = true) := by
  unfold FluidSolver.cflRaw
  dsimp only
  rw [lit_1em5]
  rcases (F64.zero_lt_iff f.Dt).mp hDt with hd | ⟨d, hd, hde⟩
  · -- Dt = +Inf: the quotient at v2 is NaN
    left
    rw [hd]
    have hN : F64.mul .posInf f.CflCond = .posInf := by
      rcases (F64.zero_lt_iff f.CflCond).mp hC with hc | ⟨c, hc, hce⟩
      · rw [hc]; rfl
      · rw [hce]
        simp [F64.mul, hc.ne.symm, hc]
    rw [hN]
    have h2 : F64.le (lit 0) v2 = true := by
      rw [lit_zero] at h1 ⊢
      cases v1 <;> cases v2 <;> simp [F64.le] at h1 h12 ⊢
      linarith
    rcases (F64.zero_le_iff v2).mp h2 with hv | ⟨x, hx, hv⟩
    · rw [hv]
      rfl
    · rw [hv]
      by_cases hx0 : x = 0
      · subst hx0
        rfl
      · have hxpos : 0 < x := lt_of_le_of_ne hx (Ne.symm hx0)
        have e : F64.mul (.fin x) .posInf = .posInf := by
          simp [F64.mul, hx0, hxpos]
        rw [e]
        rfl
  · rw [hde]
    have hN : F64.le (lit 0) (F64.mul (.fin d) f.CflCond) = true := by
      rcases (F64.zero_lt_iff f.CflCond).mp hC with hc | ⟨c, hc, hce⟩
      · rw [hc]
        have e : F64.mul (.fin d) .posInf = .posInf := by
          simp [F64.mul, hd.ne.symm, hd]
        rw [e, lit_zero]
        rfl
      · rw [hce]
        exact F64.le_zero_of_nonneg_round (mul_nonneg hd.le hc.le)
    have hm1 : F64.le (.fin 0) (F64.mul v1 (.fin d)) = true := by
      have := F64.mul_fin_mono hd (by rw [lit_zero] at h1; exact h1 : F64.le (.fin 0) v1 = true)
      have e : F64.mul (.fin 0) (.fin d) = .fin 0 := by
        simp [F64.mul, round64]
      rw [e] at this
      exact this
    have hD1 : F64.le (.fin (5902958103587057 / 2 ^ 69))
        (F64.add (F64.mul v1 (.fin d)) (.fin (5902958103587057 / 2 ^ 69))) = true := by
      have := F64.add_fin_mono (5902958103587057 / 2 ^ 69) hm1
      have e : F64.add (.fin 0) (.fin (5902958103587057 / 2 ^ 69))
          = .fin (5902958103587057 / 2 ^ 69) := by decide!
      rw [e] at this
      exact this
    have hD12 := F64.add_fin_mono (5902958103587057 / 2 ^ 69) (F64.mul_fin_mono hd h12)
    exact F64.div_antitone (by norm_num) hN hD1 hD12

end IEEE

/-! ## The IEEE model: the clamp is monotone -/

namespace IEEE

/-- Library function `math.Max` is monotone in its first argument, unless its
value at the smaller argument is NaN. -/
theorem mathMax_mono_left (lo : F64) {x y : F64} (h : F64.le x y = true) :
    mathMax x lo = .nan ∨ F64.le (mathMax x lo) (mathMax y lo) = true := by
  cases x with
  | nan => simp [F64.le] at h
  | posInf =>
    cases y <;> simp [F64.le] at h
    right
    cases lo <;> rfl
  | negInf =>
    cases lo with
    | nan => left; rfl
    | posInf => right; cases y <;> rfl
    | negInf =>
      right
      cases y with
      | nan => simp [F64.le] at h
      | negInf => rfl
      | posInf => rfl
      | fin b =>
        have e : mathMax (.fin b) .negInf = .fin b := by
          simp [mathMax, F64.lt, F64.gt]
        rw [e]
        rfl
    | fin l =>
      right
      have e : mathMax .negInf (.fin l) = .fin l := by
        simp [mathMax, F64.lt, F64.gt]
      rw [e]
      cases y with
      | nan => simp [F64.le] at h
      | negInf => rw [e]; simp [F64.le]
      | posInf => rfl
      | fin b => rw [mathMax_fin_fin]; simp [F64.le]
  | fin a =>
    cases y with
    | nan => simp [F64.le] at h
    | negInf => simp [F64.le] at h
    | posInf =>
      cases lo with
      | nan => left; rfl
      | posInf => right; rfl
      | negInf =>
        right
        have e : mathMax (.fin a) .negInf = .fin a := by
          simp [mathMax, F64.lt, F64.gt]
        rw [e]
        rfl
      | fin l =>
        right
        rw [mathMax_fin_fin]
        rfl
    | fin b =>
      have hab : a ≤ b := by simpa [F64.le] using h
      cases lo with
      | nan => left; rfl
      | posInf => right; rfl
      | negInf =>
        right
        have e : ∀ c : ℚ, mathMax (.fin c) .negInf = .fin c := by
          intro c
          simp [mathMax, F64.lt, F64.gt]
        rw [e, e]
        exact h
      | fin l =>
        right
        rw [mathMax_fin_fin, mathMax_fin_fin]
        simpa [F64.le] using max_le_max hab (le_refl l)

/-- Library function `math.Min` is monotone in its first argument on the
non-negative values, unless its value at the smaller argument is NaN. -/
theorem mathMin_mono_left (hi : F64) {x y : F64} (hx : F64.le (lit 0) x = true)
    (h : F64.le x y = true) :
    mathMin x hi = .nan ∨ F64.le (mathMin x hi) (mathMin y hi) = true := by
  rcases (F64.zero_le_iff x).mp hx with rfl | ⟨a, ha, rfl⟩
  · cases y <;> simp [F64.le] at h
    cases hi with
    | nan => left; rfl
    | negInf => right; rfl
    | posInf => right; rfl
    | fin u =>
      right
      have e : mathMin .posInf (.fin u) = .fin u := by
        simp [mathMin, F64.lt]
      rw [e]
      simp [F64.le]
  · cases y with
    | nan => simp [F64.le] at h
    | negInf => simp [F64.le] at h
    | posInf =>
      cases hi with
      | nan => left; rfl
      | negInf => right; rfl
      | posInf =>
        right
        have e : mathMin (.fin a) .posInf = .fin a := by
          simp [mathMin, F64.lt]
        rw [e]
        rfl
      | fin u =>
        right
        have e : mathMin .posInf (.fin u) = .fin u := by
          simp [mathMin, F64.lt]
        rw [e, mathMin_fin_fin]
        simp [F64.le]
    | fin b =>
      have hab : a ≤ b := by simpa [F64.le] using h
      cases hi with
      | nan => left; rfl
      | negInf => right; rfl
      | posInf =>
        right
        have e : ∀ c : ℚ, mathMin (.fin c) .posInf = .fin c := by
          intro c
          simp [mathMin, F64.lt]
        rw [e, e]
        exact h
      | fin u =>
        right
        rw [mathMin_fin_fin, mathMin_fin_fin]
        simpa [F64.le] using min_le_min hab (le_refl u)

/-- The clamp `math.Max(math.Min(q, hi), lo)` does not grow when `q` shrinks
to a non-negative value or to NaN: its value at the smaller `q` is NaN or at
most its value at the larger one. -/
theorem clamp64_antitone (lo hi : F64) {q1 q2 : F64}
    (h : q2 = .nan ∨ (F64.le (lit 0) q2 = true ∧ F64.le q2 q1 = true)) :
    mathMax (mathMin q2 hi) lo = .nan
      ∨ F64.le (mathMax (mathMin q2 hi) lo) (mathMax (mathMin q1 hi) lo) = true := by
  have nanStep : ∀ z : F64, mathMax .nan lo = .nan
      ∨ F64.le (mathMax .nan lo) (mathMax z lo) = true := by
    intro z
    cases lo with
    | nan => left; rfl
    | negInf => left; rfl
    | fin l => left; rfl
    | posInf => right; cases z <;> rfl
  rcases h with rfl | ⟨h0, h21⟩
  · cases hi with
    | negInf =>
      have e : ∀ z : F64, mathMin z .negInf = .negInf := by
        intro z
        cases z <;> rfl
      rw [e, e]
      exact mathMax_mono_left lo (by rfl)
    | nan => exact nanStep _
    | posInf => exact nanStep _
    | fin u => exact nanStep _
  · rcases mathMin_mono_left hi h0 h21 with e | hle
    · rw [e]
      exact nanStep _
    · exact mathMax_mono_left lo hle

end IEEE

/-! ## C1 -/

/-- C1 (fails on the code): on every controller returned by `NewFluidSolver`,
whatever the velocities, the first `AdaptTimestep` returns with
`Dt = 1.0001`, the following `Step` leaves `TimePerFrame = 1.0001` (no frame
boundary is detected), and the second `AdaptTimestep` of the documented order
ends with `Dt = 0 <= DtMin/2` and panics with "Invalid dt encountered". -/
theorem C1_default_run_panics (gridSize : vec3 Int) (dim : Int) (fourthDim : Bool)
    (s : FluidSolver) (hs : NewFluidSolver gridSize dim fourthDim = .ok s)
    (v1 v2 : ℚ) (rest : List Call) :
    (s.AdaptTimestep v1).2 = .returned
    ∧ (s.AdaptTimestep v1).1.Dt = 1.0001
    ∧ (s.AdaptTimestep v1).1.Step.TimePerFrame = 1.0001
    ∧ ((s.AdaptTimestep v1).1.Step.AdaptTimestep v2).1.Dt = 0
    ∧ ((s.AdaptTimestep v1).1.Step.AdaptTimestep v2).2 = .panicked invalidDt
    ∧ (run s (.adapt v1 :: .step :: .adapt v2 :: rest)).2 = .panicked invalidDt := by
  have e := NewFluidSolver_ok_eq gridSize dim fourthDim s hs
  subst e
  have h1 : ∀ v, FluidSolver.adaptBody
      { Dt := 1, LockDt := false, TimePerFrame := 0, TimeTotal := 0, Frame := 0,
        FrameLength := 1, CflCond := 1000, DtMin := 1, DtMax := 1,
        GridSize := gridSize, Dim := dim, FourthDim := fourthDim } v
      = { Dt := 1.0001, LockDt := false, TimePerFrame := 0, TimeTotal := 0, Frame := 0,
          FrameLength := 1, CflCond := 1000, DtMin := 1, DtMax := 1,
          GridSize := gridSize, Dim := dim, FourthDim := fourthDim } := by
    intro v
    rw [FluidSolver.adaptBody_snap _ _ rfl
      (by rw [FluidSolver.cflProposal_eq_of_min_eq_max _ _ rfl]; norm_num)]
    norm_num
  have h2 : ∀ v, FluidSolver.adaptBody
      { Dt := 1.0001, LockDt := false, TimePerFrame := 1.0001, TimeTotal := 1.0001, Frame := 0,
        FrameLength := 1, CflCond := 1000, DtMin := 1, DtMax := 1,
        GridSize := gridSize, Dim := dim, FourthDim := fourthDim } v
      = { Dt := 0, LockDt := false, TimePerFrame := 1.0001, TimeTotal := 1.0001, Frame := 0,
          FrameLength := 1, CflCond := 1000, DtMin := 1, DtMax := 1,
          GridSize := gridSize, Dim := dim, FourthDim := fourthDim } := by
    intro v
    rw [FluidSolver.adaptBody_snap _ _ rfl
      (by rw [FluidSolver.cflProposal_eq_of_min_eq_max _ _ rfl]; norm_num)]
    norm_num
  have a1 : ∀ v, FluidSolver.AdaptTimestep
      { Dt := 1, LockDt := false, TimePerFrame := 0, TimeTotal := 0, Frame := 0,
        FrameLength := 1, CflCond := 1000, DtMin := 1, DtMax := 1,
        GridSize := gridSize, Dim := dim, FourthDim := fourthDim } v
      = ({ Dt := 1.0001, LockDt := false, TimePerFrame := 0, TimeTotal := 0, Frame := 0,
           FrameLength := 1, CflCond := 1000, DtMin := 1, DtMax := 1,
           GridSize := gridSize, Dim := dim, FourthDim := fourthDim }, .returned) := by
    intro v
    refine Prod.ext (by rw [FluidSolver.AdaptTimestep_fst, h1 v]) ?_
    rw [FluidSolver.AdaptTimestep_snd, h1 v]
    exact if_neg (by norm_num)
  have st : FluidSolver.Step
      { Dt := 1.0001, LockDt := false, TimePerFrame := 0, TimeTotal := 0, Frame := 0,
        FrameLength := 1, CflCond := 1000, DtMin := 1, DtMax := 1,
        GridSize := gridSize, Dim := dim, FourthDim := fourthDim }
      = { Dt := 1.0001, LockDt := false, TimePerFrame := 1.0001, TimeTotal := 1.0001, Frame := 0,
          FrameLength := 1, CflCond := 1000, DtMin := 1, DtMax := 1,
          GridSize := gridSize, Dim := dim, FourthDim := fourthDim } := by
    unfold FluidSolver.Step VectorEpsilon
    norm_num
  have a2 : ∀ v, FluidSolver.AdaptTimestep
      { Dt := 1.0001, LockDt := false, TimePerFrame := 1.0001, TimeTotal := 1.0001, Frame := 0,
        FrameLength := 1, CflCond := 1000, DtMin := 1, DtMax := 1,
        GridSize := gridSize, Dim := dim, FourthDim := fourthDim } v
      = ({ Dt := 0, LockDt := false, TimePerFrame := 1.0001, TimeTotal := 1.0001, Frame := 0,
           FrameLength := 1, CflCond := 1000, DtMin := 1, DtMax := 1,
           GridSize := gridSize, Dim := dim, FourthDim := fourthDim }, .panicked invalidDt) := by
    intro v
    refine Prod.ext (by rw [FluidSolver.AdaptTimestep_fst, h2 v]) ?_
    rw [FluidSolver.AdaptTimestep_snd, h2 v]
    exact if_pos (by norm_num)
  refine ⟨?_, ?_, ?_, ?_, ?_, ?_⟩
  · rw [a1]
  · rw [a1]
  · rw [a1, st]
  · rw [a1, st, a2]
  · rw [a1, st, a2]
  · rw [run_cons_returned _ _ (.adapt v1) _ (a1 v1),
      run_cons_returned _ _ .step _ (congrArg (fun x => (x, Outcome.returned)) st),
      run_cons_panicked _ _ (.adapt v2) _ _ (a2 v2)]

/-- C1, at a concrete run: a fresh 3D controller, velocities `0` and `0`. -/
theorem C1_default_run_panics_witness :
    NewFluidSolver ⟨64, 64, 64⟩ 3 false = .ok freshSolver
    ∧ (run freshSolver (alternate [0, 0])).2 = .panicked invalidDt :=
  ⟨NewFluidSolver_fresh,
   (C1_default_run_panics ⟨64, 64, 64⟩ 3 false freshSolver NewFluidSolver_fresh 0 0 [.step]).2.2.2.2.2⟩

/-! ## C2 -/

theorem FluidSolver.Step_of_not_lt (f : FluidSolver)
    (h : ¬ f.TimePerFrame + f.Dt < VectorEpsilon) :
    f.Step = { f with TimePerFrame := f.TimePerFrame + f.Dt, TimeTotal := f.TimeTotal + f.Dt } := by
  unfold FluidSolver.Step
  dsimp only
  rw [if_neg h]

theorem FluidSolver.Step_of_lt (f : FluidSolver)
    (h : f.TimePerFrame + f.Dt < VectorEpsilon) :
    f.Step = { f with
      TimePerFrame := 0
      TimeTotal := (wrapInt64 (f.Frame + 1) : ℚ) * f.FrameLength
      Frame := wrapInt64 (f.Frame + 1)
      LockDt := false } := by
  unfold FluidSolver.Step
  dsimp only
  rw [if_pos h]

/-- C2 (fails on the code): when the accumulated time reaches the frame
boundary (`Dt > 0`, `TimePerFrame >= 0`, `FrameLength > 0`,
`TimePerFrame + Dt >= FrameLength`), `Step` does not detect it: it only
accumulates, so `Frame` is unchanged, `TimePerFrame` becomes
`TimePerFrame + Dt` (not `0`), `TimeTotal` becomes `TimeTotal + Dt` and
`LockDt` is left as it was. -/
theorem C2_step_misses_completed_frame (f : FluidSolver) (_hDt : 0 < f.Dt)
    (_hT : 0 ≤ f.TimePerFrame) (hF : 0 < f.FrameLength)
    (hB : f.TimePerFrame + f.Dt ≥ f.FrameLength) :
    f.Step = { f with TimePerFrame := f.TimePerFrame + f.Dt, TimeTotal := f.TimeTotal + f.Dt }
    ∧ f.Step.Frame = f.Frame
    ∧ f.Step.Frame ≠ f.Frame + 1
    ∧ f.Step.TimePerFrame ≠ 0
    ∧ f.Step.LockDt = f.LockDt := by
  have hn : ¬ f.TimePerFrame + f.Dt < VectorEpsilon := by
    unfold VectorEpsilon
    have : 0 < f.TimePerFrame + f.Dt := lt_of_lt_of_le hF hB
    exact not_lt.mpr this.le
  have e := FluidSolver.Step_of_not_lt f hn
  refine ⟨e, ?_, ?_, ?_, ?_⟩
  · rw [e]
  · rw [e]
    show f.Frame ≠ f.Frame + 1
    omega
  · rw [e]
    show f.TimePerFrame + f.Dt ≠ 0
    have : 0 < f.TimePerFrame + f.Dt := lt_of_lt_of_le hF hB
    exact this.ne.symm
  · rw [e]

/-- C2, at the default controller after its first `AdaptTimestep`
(`Dt = 1.0001`, `TimePerFrame = 0`, `FrameLength = 1`): the frame is
complete, yet `Frame` stays `0` and `TimePerFrame` becomes `1.0001`. -/
theorem C2_step_misses_completed_frame_witness :
    snappedSolver.TimePerFrame + snappedSolver.Dt ≥ snappedSolver.FrameLength
    ∧ snappedSolver.Step.Frame = 0
    ∧ snappedSolver.Step.TimePerFrame = 1.0001 := by
  have h := C2_step_misses_completed_frame snappedSolver
    (by norm_num [snappedSolver]) (by norm_num [snappedSolver])
    (by norm_num [snappedSolver]) (by norm_num [snappedSolver])
  refine ⟨by norm_num [snappedSolver], h.2.1, ?_⟩
  rw [h.1]
  norm_num [snappedSolver]

/-! ## C3 -/

namespace IEEE

/-- C3 (as stated, fails): on `hugeSolver` (`Dt = CflCond = 1e200`,
`DtMin = 0.1 <= DtMax = 0.2`, unlocked) with `maxVel = 1e200 >= 0`, both
products overflow, the quotient is `Inf/Inf = NaN`, `math.Min` and `math.Max`
keep it, and the proposal is NaN: `DtMin <= p` is false, and `AdaptTimestep`
returns normally with `Dt = NaN`. -/
theorem C3_counterexample :
    F64.le hugeSolver.DtMin hugeSolver.DtMax = true
    ∧ F64.le (lit 0) (lit 1e200) = true
    ∧ hugeSolver.LockDt = false
    ∧ F64.mul hugeSolver.Dt hugeSolver.CflCond = .posInf
    ∧ hugeSolver.cflRaw (lit 1e200) = .nan
    ∧ hugeSolver.cflProposal (lit 1e200) = .nan
    ∧ F64.le hugeSolver.DtMin (hugeSolver.cflProposal (lit 1e200)) = false
    ∧ F64.le (hugeSolver.cflProposal (lit 1e200)) hugeSolver.DtMax = false
    ∧ (hugeSolver.AdaptTimestep (lit 1e200)).1.Dt = .nan
    ∧ (hugeSolver.AdaptTimestep (lit 1e200)).2 = .returned := by
  decide!

/-- C3 (amended): for every controller with `DtMin <= DtMax` and every
`maxVel >= 0`, the proposal
`p = math.Max(math.Min(Dt*CflCond/(maxVel*Dt + 1e-5), DtMax), DtMin)`,
computed in `float64`, is NaN or satisfies `DtMin <= p <= DtMax`; it satisfies
`DtMin <= p <= DtMax` whenever the quotient is not NaN, and is NaN only when
the quotient is; so when `DtMin > 0` it is NaN or positive.  On an unlocked
controller where neither frame-fitting test holds, `AdaptTimestep` commits
`Dt = p`, changes nothing else and leaves `LockDt` false. -/
theorem C3_cfl_clamp_or_nan (f : FluidSolver) (maxVel : F64)
    (hmm : F64.le f.DtMin f.DtMax = true) (_hv : F64.le (lit 0) maxVel = true) :
    f.cflProposal maxVel
        = mathMax (mathMin (F64.div (F64.mul f.Dt f.CflCond)
            (F64.add (F64.mul maxVel f.Dt) (lit 1e-05))) f.DtMax) f.DtMin
    ∧ (f.cflProposal maxVel = .nan
        ∨ (F64.le f.DtMin (f.cflProposal maxVel) = true
          ∧ F64.le (f.cflProposal maxVel) f.DtMax = true))
    ∧ (f.cflRaw maxVel ≠ .nan →
        F64.le f.DtMin (f.cflProposal maxVel) = true
        ∧ F64.le (f.cflProposal maxVel) f.DtMax = true)
    ∧ (f.cflProposal maxVel = .nan → f.cflRaw maxVel = .nan)
    ∧ (F64.lt (lit 0) f.DtMin = true →
        f.cflProposal maxVel = .nan ∨ F64.lt (lit 0) (f.cflProposal maxVel) = true)
    ∧ (f.LockDt = false →
        FluidSolver.snapTest { f with Dt := f.cflProposal maxVel } = false →
        FluidSolver.splitTest { f with Dt := f.cflProposal maxVel } = false →
        (f.AdaptTimestep maxVel).1 = { f with Dt := f.cflProposal maxVel }
        ∧ (f.AdaptTimestep maxVel).1.Dt = f.cflProposal maxVel
        ∧ (f.AdaptTimestep maxVel).1.LockDt = false) := by
  obtain ⟨c1, c2, c3⟩ := clamp64_bounds (f.cflRaw maxVel) f.DtMin f.DtMax hmm
  refine ⟨rfl, c1, c2, c3, ?_, ?_⟩
  · intro h0
    rcases c1 with c1 | ⟨c1, -⟩
    · exact Or.inl c1
    · exact Or.inr (F64.lt_of_lt_of_le64 h0 c1)
  · intro hl hs hc
    have e : (f.AdaptTimestep maxVel).1 = { f with Dt := f.cflProposal maxVel } := by
      rw [AdaptTimestep64_fst, adaptBody64_keep f maxVel hl hs hc]
    exact ⟨e, by rw [e], by rw [e]; exact hl⟩

/-- C3 (amended), at `cruisingSolver` with `maxVel = 0`: the proposal is
`DtMax = 0.2` (as a `float64`) and it is committed unchanged. -/
theorem C3_cfl_clamp_or_nan_witness :
    cruisingSolver.cflProposal (lit 0) = lit 0.2
    ∧ F64.le cruisingSolver.DtMin (cruisingSolver.cflProposal (lit 0)) = true
    ∧ F64.le (cruisingSolver.cflProposal (lit 0)) cruisingSolver.DtMax = true
    ∧ (cruisingSolver.AdaptTimestep (lit 0)).1.Dt = cruisingSolver.cflProposal (lit 0)
    ∧ (cruisingSolver.AdaptTimestep (lit 0)).1.LockDt = false := by
  have h := C3_cfl_clamp_or_nan cruisingSolver (lit 0) (by decide!) (by decide!)
  have h3 := h.2.2.1 (by decide!)
  have h6 := h.2.2.2.2.2 (by decide!) (by decide!) (by decide!)
  exact ⟨by decide!, h3.1, h3.2, h6.2.1, h6.2.2⟩

end IEEE

/-! ## C4 -/

/-- C4: on an unlocked controller whose clamped CFL proposal `p` satisfies
`TimePerFrame + p*1.05 > FrameLength`, `AdaptTimestep` commits
`Dt = FrameLength - TimePerFrame + 1e-4`, changes no other field and leaves
`LockDt` false (the call then returns exactly when that `Dt` exceeds
`DtMin/2`).  In particular with `TimePerFrame = 0.96`, `FrameLength = 1`
and any proposal `p >= 0.039` the snap condition holds and `Dt = 0.0401`. -/
theorem C4_snap_branch (f : FluidSolver) (maxVel : ℚ) (hl : f.LockDt = false) :
    (f.TimePerFrame + f.cflProposal maxVel * 1.05 > f.FrameLength →
      (f.AdaptTimestep maxVel).1 = { f with Dt := f.FrameLength - f.TimePerFrame + 1e-4 }
      ∧ (f.AdaptTimestep maxVel).1.Dt = f.FrameLength - f.TimePerFrame + 1e-4
      ∧ (f.AdaptTimestep maxVel).1.LockDt = false
      ∧ ((f.AdaptTimestep maxVel).2 = .returned
          ↔ f.DtMin / 2 < f.FrameLength - f.TimePerFrame + 1e-4))
    ∧ (f.TimePerFrame = 0.96 → f.FrameLength = 1 → f.cflProposal maxVel ≥ 0.039 →
      f.TimePerFrame + f.cflProposal maxVel * 1.05 > f.FrameLength
      ∧ (f.AdaptTimestep maxVel).1.Dt = 0.0401
      ∧ (f.AdaptTimestep maxVel).1.LockDt = false) := by
  have key : f.TimePerFrame + f.cflProposal maxVel * 1.05 > f.FrameLength →
      (f.AdaptTimestep maxVel).1 = { f with Dt := f.FrameLength - f.TimePerFrame + 1e-4 }
      ∧ (f.AdaptTimestep maxVel).1.Dt = f.FrameLength - f.TimePerFrame + 1e-4
      ∧ (f.AdaptTimestep maxVel).1.LockDt = false
      ∧ ((f.AdaptTimestep maxVel).2 = .returned
          ↔ f.DtMin / 2 < f.FrameLength - f.TimePerFrame + 1e-4) := by
    intro hs
    have e : (f.AdaptTimestep maxVel).1
        = { f with Dt := f.FrameLength - f.TimePerFrame + 1e-4 } := by
      rw [FluidSolver.AdaptTimestep_fst, FluidSolver.adaptBody_snap f maxVel hl hs]
    refine ⟨e, by rw [e], by rw [e]; exact hl, ?_⟩
    rw [FluidSolver.AdaptTimestep_returned_iff, e]
  refine ⟨key, ?_⟩
  intro hT hF hp
  have hs : f.TimePerFrame + f.cflProposal maxVel * 1.05 > f.FrameLength := by
    rw [hT, hF]
    norm_num at hp ⊢
    linarith
  obtain ⟨-, h2, h3, -⟩ := key hs
  refine ⟨hs, ?_, h3⟩
  rw [h2, hT, hF]
  norm_num

/-- C4, at `overshootSolver` (`TimePerFrame = 0.96`, `FrameLength = 1`) with
`maxVel = 0`: the proposal is `0.5 >= 0.039` and the committed `Dt` is
`0.0401`. -/
theorem C4_snap_branch_witness :
    overshootSolver.cflProposal 0 = 0.5
    ∧ (overshootSolver.AdaptTimestep 0).1.Dt = 0.0401
    ∧ (overshootSolver.AdaptTimestep 0).1.LockDt = false := by
  have hp : overshootSolver.cflProposal 0 = 0.5 := by
    simp [FluidSolver.cflProposal, overshootSolver]
    norm_num
  have h := (C4_snap_branch overshootSolver 0 rfl).2
    (by norm_num [overshootSolver]) (by norm_num [overshootSolver])
    (by rw [hp]; norm_num)
  exact ⟨hp, h.2.1, h.2.2⟩

/-! ## C5 -/

/-- C5: on an unlocked controller whose clamped CFL proposal `p` does not
trigger the snap branch (`TimePerFrame + p*1.05 <= FrameLength`) but has
`TimePerFrame + p + DtMin > FrameLength` or
`TimePerFrame + p*1.25 > FrameLength`, `AdaptTimestep` commits
`Dt = (FrameLength - TimePerFrame + 1e-4) * 0.5`, sets `LockDt = true` and
changes no other field (and returns normally when `DtMin > 0`); in every
other unlocked case `LockDt` is left
false. -/
theorem C5_split_branch (f : FluidSolver) (maxVel : ℚ) (hl : f.LockDt = false) :
    (f.TimePerFrame + f.cflProposal maxVel * 1.05 ≤ f.FrameLength →
      (f.TimePerFrame + f.cflProposal maxVel + f.DtMin > f.FrameLength
        ∨ f.TimePerFrame + f.cflProposal maxVel * 1.25 > f.FrameLength) →
      (f.AdaptTimestep maxVel).1
          = { f with Dt := (f.FrameLength - f.TimePerFrame + 1e-4) * 0.5, LockDt := true }
      ∧ (f.AdaptTimestep maxVel).1.Dt = (f.FrameLength - f.TimePerFrame + 1e-4) * 0.5
      ∧ (f.AdaptTimestep maxVel).1.LockDt = true
      ∧ (0 < f.DtMin → (f.AdaptTimestep maxVel).2 = .returned))
    ∧ (¬ (f.TimePerFrame + f.cflProposal maxVel * 1.05 ≤ f.FrameLength
          ∧ (f.TimePerFrame + f.cflProposal maxVel + f.DtMin > f.FrameLength
            ∨ f.TimePerFrame + f.cflProposal maxVel * 1.25 > f.FrameLength)) →
      (f.AdaptTimestep maxVel).1.LockDt = false) := by
  constructor
  · intro hs hc
    have e : (f.AdaptTimestep maxVel).1
        = { f with Dt := (f.FrameLength - f.TimePerFrame + 1e-4) * 0.5, LockDt := true } := by
      rw [FluidSolver.AdaptTimestep_fst,
        FluidSolver.adaptBody_split f maxVel hl (not_lt.mpr hs) hc]
    refine ⟨e, by rw [e], by rw [e], fun h0 => ?_⟩
    rw [FluidSolver.AdaptTimestep_returned_iff, e]
    show f.DtMin / 2 < (f.FrameLength - f.TimePerFrame + 1e-4) * 0.5
    have hp := FluidSolver.cflProposal_ge f maxVel
    norm_num at hs ⊢
    linarith
  · intro hn
    rw [FluidSolver.AdaptTimestep_fst]
    by_cases hs : f.TimePerFrame + f.cflProposal maxVel * 1.05 > f.FrameLength
    · rw [FluidSolver.adaptBody_snap f maxVel hl hs]
      exact hl
    · have hc : ¬ (f.TimePerFrame + f.cflProposal maxVel + f.DtMin > f.FrameLength
          ∨ f.TimePerFrame + f.cflProposal maxVel * 1.25 > f.FrameLength) :=
        fun hc => hn ⟨not_lt.mp hs, hc⟩
      rw [FluidSolver.adaptBody_keep f maxVel hl hs hc]
      exact hl

/-- C5, at `splitSolver` with `maxVel = 0`: the proposal is `0.4`, the step
would leave less than `DtMin`, and the committed `Dt` is `0.25005` with the
lock set. -/
theorem C5_split_branch_witness :
    splitSolver.cflProposal 0 = 0.4
    ∧ (splitSolver.AdaptTimestep 0).1.Dt = 0.25005
    ∧ (splitSolver.AdaptTimestep 0).1.LockDt = true := by
  have hp : splitSolver.cflProposal 0 = 0.4 := by
    simp [FluidSolver.cflProposal, splitSolver]
    norm_num
  have h := (C5_split_branch splitSolver 0 rfl).1
    (by rw [hp]; norm_num [splitSolver])
    (Or.inl (by rw [hp]; norm_num [splitSolver]))
  refine ⟨hp, ?_, h.2.2.1⟩
  rw [h.2.1]
  norm_num [splitSolver]

/-! ## C6 -/

/-- C6 (as stated, fails): on the controller of the frame-fitting example
(`FrameLength = 1`, `TimePerFrame = 0.9`, `DtMin = 0.2`, `DtMax = 0.5`,
`Dt = 0.5`, `CflCond = 1000`, `maxVel = 0`) the clamped proposal is `0.5`, but
`AdaptTimestep` does not end with `Dt = 0.05005` and `LockDt = true`: it ends
with `Dt = 0.1001` and `LockDt = false`. -/
theorem C6_counterexample :
    fittingSolver.LockDt = false
    ∧ fittingSolver.cflProposal 0 = 0.5
    ∧ (fittingSolver.AdaptTimestep 0).1.Dt = 0.1001
    ∧ (fittingSolver.AdaptTimestep 0).1.LockDt = false
    ∧ ¬ ((fittingSolver.AdaptTimestep 0).1.Dt = 0.05005
        ∧ (fittingSolver.AdaptTimestep 0).1.LockDt = true) := by
  have hp : fittingSolver.cflProposal 0 = 0.5 := by
    simp [FluidSolver.cflProposal, fittingSolver]
    norm_num
  have e : (fittingSolver.AdaptTimestep 0).1
      = { fittingSolver with
          Dt := fittingSolver.FrameLength - fittingSolver.TimePerFrame + 1e-4 } := by
    rw [FluidSolver.AdaptTimestep_fst, FluidSolver.adaptBody_snap fittingSolver 0 rfl
      (by rw [hp]; norm_num [fittingSolver])]
  have hd : (fittingSolver.AdaptTimestep 0).1.Dt = 0.1001 := by
    rw [e]
    norm_num [fittingSolver]
  have hk : (fittingSolver.AdaptTimestep 0).1.LockDt = false := by
    rw [e]
    rfl
  refine ⟨rfl, hp, hd, hk, ?_⟩
  rintro ⟨-, h2⟩
  rw [hk] at h2
  exact Bool.noConfusion h2

/-- C6 (amended): on every unlocked controller with `FrameLength = 1`,
`TimePerFrame = 0.9`, `DtMin = 0.2`, `DtMax = 0.5` whose clamped CFL proposal
is `0.5`, the snap test `0.9 + 0.5*1.05 > 1` holds, so `AdaptTimestep` takes
the snap branch: it ends with `Dt = 1 - 0.9 + 1e-4 = 0.1001` and
`LockDt = false`, and returns normally. -/
theorem C6_fitting_example_snaps (f : FluidSolver) (maxVel : ℚ) (hl : f.LockDt = false)
    (hF : f.FrameLength = 1) (hT : f.TimePerFrame = 0.9) (hmin : f.DtMin = 0.2)
    (_hmax : f.DtMax = 0.5) (hp : f.cflProposal maxVel = 0.5) :
    f.TimePerFrame + f.cflProposal maxVel * 1.05 > f.FrameLength
    ∧ (f.AdaptTimestep maxVel).1.Dt = 0.1001
    ∧ (f.AdaptTimestep maxVel).1.LockDt = false
    ∧ (f.AdaptTimestep maxVel).2 = .returned := by
  have hs : f.TimePerFrame + f.cflProposal maxVel * 1.05 > f.FrameLength := by
    rw [hT, hF, hp]
    norm_num
  have e : (f.AdaptTimestep maxVel).1
      = { f with Dt := f.FrameLength - f.TimePerFrame + 1e-4 } := by
    rw [FluidSolver.AdaptTimestep_fst, FluidSolver.adaptBody_snap f maxVel hl hs]
  have hd : (f.AdaptTimestep maxVel).1.Dt = 0.1001 := by
    rw [e]
    show f.FrameLength - f.TimePerFrame + 1e-4 = 0.1001
    rw [hT, hF]
    norm_num
  refine ⟨hs, hd, by rw [e]; exact hl, ?_⟩
  rw [FluidSolver.AdaptTimestep_returned_iff, hd, hmin]
  norm_num

/-- C6 (amended), at the controller of the example with `maxVel = 0`. -/
theorem C6_fitting_example_snaps_witness :
    (fittingSolver.AdaptTimestep 0).1.Dt = 0.1001
    ∧ (fittingSolver.AdaptTimestep 0).2 = .returned := by
  have h := C6_fitting_example_snaps fittingSolver 0 rfl
    (by norm_num [fittingSolver]) (by norm_num [fittingSolver])
    (by norm_num [fittingSolver]) (by norm_num [fittingSolver])
    (by simp [FluidSolver.cflProposal, fittingSolver]; norm_num)
  exact ⟨h.2.1, h.2.2.2⟩

/-! ## C7 -/

/-- C7: on a locked controller `AdaptTimestep` changes no field (in
particular not `Dt`), whatever `maxVel` is, and its whole result (receiver and
outcome) is the same for any two values of `maxVel`. -/
theorem C7_locked_adapt_keeps_state (f : FluidSolver) (hl : f.LockDt = true)
    (maxVel maxVel2 : ℚ) :
    (f.AdaptTimestep maxVel).1 = f
    ∧ (f.AdaptTimestep maxVel).1.Dt = f.Dt
    ∧ f.AdaptTimestep maxVel = f.AdaptTimestep maxVel2 := by
  have e : ∀ v, (f.AdaptTimestep v).1 = f := fun v => by
    rw [FluidSolver.AdaptTimestep_fst, FluidSolver.adaptBody_locked f v hl]
  refine ⟨e maxVel, by rw [e maxVel], ?_⟩
  refine Prod.ext (by rw [e maxVel, e maxVel2]) ?_
  rw [FluidSolver.AdaptTimestep_snd, FluidSolver.AdaptTimestep_snd,
    FluidSolver.adaptBody_locked f maxVel hl, FluidSolver.adaptBody_locked f maxVel2 hl]

/-- C7, at `lockedSolver` with velocities `0` and `1000`. -/
theorem C7_locked_adapt_keeps_state_witness :
    (lockedSolver.AdaptTimestep 0).1 = lockedSolver
    ∧ lockedSolver.AdaptTimestep 0 = lockedSolver.AdaptTimestep 1000 :=
  have h := C7_locked_adapt_keeps_state lockedSolver rfl 0 1000
  ⟨h.1, h.2.2⟩

/-! ## C8 -/

/-- The value of `Dt` the receiver holds when `AdaptTimestep` reaches its final
check: the untouched `Dt` when locked, else the frame-fitted proposal. -/
theorem FluidSolver.AdaptTimestep_Dt (f : FluidSolver) (maxVel : ℚ) :
    (f.AdaptTimestep maxVel).1.Dt =
      if f.LockDt = true then f.Dt
      else if f.TimePerFrame + f.cflProposal maxVel * 1.05 > f.FrameLength then
        f.FrameLength - f.TimePerFrame + 1e-4
      else if f.TimePerFrame + f.cflProposal maxVel + f.DtMin > f.FrameLength
          ∨ f.TimePerFrame + f.cflProposal maxVel * 1.25 > f.FrameLength then
        (f.FrameLength - f.TimePerFrame + 1e-4) * 0.5
      else f.cflProposal maxVel := by
  rw [FluidSolver.AdaptTimestep_fst]
  by_cases hl : f.LockDt = true
  · rw [if_pos hl, FluidSolver.adaptBody_locked f maxVel hl]
  · have hl2 : f.LockDt = false := by simpa using hl
    rw [if_neg hl]
    by_cases hs : f.TimePerFrame + f.cflProposal maxVel * 1.05 > f.FrameLength
    · rw [if_pos hs, FluidSolver.adaptBody_snap f maxVel hl2 hs]
    · rw [if_neg hs]
      by_cases hc : f.TimePerFrame + f.cflProposal maxVel + f.DtMin > f.FrameLength
          ∨ f.TimePerFrame + f.cflProposal maxVel * 1.25 > f.FrameLength
      · rw [if_pos hc, FluidSolver.adaptBody_split f maxVel hl2 hs hc]
      · rw [if_neg hc, FluidSolver.adaptBody_keep f maxVel hl2 hs hc]

/-- C8: `AdaptTimestep` panics with "Invalid dt encountered" if and only if
the `Dt` it ends with (the untouched value when locked, the newly adapted one
when unlocked) is at most `DtMin/2`; it returns normally if and only if that
`Dt` exceeds `DtMin/2`; it has no other outcome; and `Step` always
returns. -/
theorem C8_fatal_check (f : FluidSolver) (maxVel : ℚ) :
    ((f.AdaptTimestep maxVel).2 = .panicked invalidDt
        ↔ (f.AdaptTimestep maxVel).1.Dt ≤ f.DtMin / 2)
    ∧ ((f.AdaptTimestep maxVel).2 = .returned
        ↔ ¬ (f.AdaptTimestep maxVel).1.Dt ≤ f.DtMin / 2)
    ∧ ((f.AdaptTimestep maxVel).2 = .returned
        ∨ (f.AdaptTimestep maxVel).2 = .panicked invalidDt)
    ∧ (f.AdaptTimestep maxVel).1.Dt =
        (if f.LockDt = true then f.Dt
         else if f.TimePerFrame + f.cflProposal maxVel * 1.05 > f.FrameLength then
           f.FrameLength - f.TimePerFrame + 1e-4
         else if f.TimePerFrame + f.cflProposal maxVel + f.DtMin > f.FrameLength
             ∨ f.TimePerFrame + f.cflProposal maxVel * 1.25 > f.FrameLength then
           (f.FrameLength - f.TimePerFrame + 1e-4) * 0.5
         else f.cflProposal maxVel)
    ∧ (f.AdaptTimestep maxVel).1.DtMin = f.DtMin
    ∧ Call.exec .step f = (f.Step, .returned) := by
  refine ⟨FluidSolver.AdaptTimestep_panicked_iff f maxVel, ?_, ?_,
    FluidSolver.AdaptTimestep_Dt f maxVel, ?_, rfl⟩
  · rw [FluidSolver.AdaptTimestep_returned_iff, not_le]
  · by_cases h : (f.AdaptTimestep maxVel).1.Dt ≤ f.DtMin / 2
    · exact Or.inr ((FluidSolver.AdaptTimestep_panicked_iff f maxVel).mpr h)
    · exact Or.inl ((FluidSolver.AdaptTimestep_returned_iff f maxVel).mpr (not_le.mp h))
  · rw [FluidSolver.AdaptTimestep_fst, FluidSolver.adaptBody_DtMin]

/-! ## C9 -/

namespace IEEE

/-- C9 (as stated, fails): the default controller (`DtMin = DtMax = 1`,
`FrameLength = 1`) returns normally from `AdaptTimestep 0` with the `float64`
`Dt = 1.0001 > DtMax`; `overshootSolver` (`DtMin = 0.05`, `DtMax = 0.5`,
`TimePerFrame = 0.96`) returns normally with `Dt` about `0.0401 < DtMin`; and
`hugeSolver` (`Dt = CflCond = 1e200`, `DtMin = 0.1`, `DtMax = 0.2`) with
`maxVel = 1e200` returns normally with `Dt = NaN`, which is neither
`>= DtMin` nor `> DtMin/2`. -/
theorem C9_timestep_leaves_bounds :
    (F64.lt (lit 0) freshSolver.DtMin = true
      ∧ F64.le freshSolver.DtMin freshSolver.DtMax = true
      ∧ F64.lt (lit 0) freshSolver.FrameLength = true
      ∧ F64.le (lit 0) (lit 0) = true
      ∧ (freshSolver.AdaptTimestep (lit 0)).2 = .returned
      ∧ (freshSolver.AdaptTimestep (lit 0)).1.Dt = .fin (4504049987333233 / 2 ^ 52)
      ∧ F64.le (freshSolver.AdaptTimestep (lit 0)).1.Dt freshSolver.DtMax = false)
    ∧ (F64.lt (lit 0) overshootSolver.DtMin = true
      ∧ F64.le overshootSolver.DtMin overshootSolver.DtMax = true
      ∧ F64.lt (lit 0) overshootSolver.FrameLength = true
      ∧ (overshootSolver.AdaptTimestep (lit 0)).2 = .returned
      ∧ F64.le overshootSolver.DtMin (overshootSolver.AdaptTimestep (lit 0)).1.Dt = false
      ∧ F64.lt (lit 0.04) (overshootSolver.AdaptTimestep (lit 0)).1.Dt = true)
    ∧ (F64.lt (lit 0) hugeSolver.DtMin = true
      ∧ F64.le hugeSolver.DtMin hugeSolver.DtMax = true
      ∧ F64.lt (lit 0) hugeSolver.FrameLength = true
      ∧ F64.le (lit 0) (lit 1e200) = true
      ∧ (hugeSolver.AdaptTimestep (lit 1e200)).2 = .returned
      ∧ (hugeSolver.AdaptTimestep (lit 1e200)).1.Dt = .nan
      ∧ F64.le hugeSolver.DtMin (hugeSolver.AdaptTimestep (lit 1e200)).1.Dt = false
      ∧ F64.lt (F64.div hugeSolver.DtMin (lit 2))
          (hugeSolver.AdaptTimestep (lit 1e200)).1.Dt = false) := by
  decide!

/-- C9 (amended): for every controller with `0 < DtMin <= DtMax`,
`FrameLength > 0` and every `maxVel >= 0`, whenever `AdaptTimestep` returns
normally the committed timestep is not `<= DtMin/2`: it is NaN or exceeds
`DtMin/2`, hence is NaN or positive.  On a locked controller it is the old
`Dt`.  On an unlocked one it is the clamped proposal `p`, or the snapped value
`FrameLength - TimePerFrame + 1e-4`, or half of that (the last two may lie on
either side of `[DtMin, DtMax]`); when neither frame-fitting test holds it is
`p`, which is NaN or satisfies `DtMin <= p <= DtMax`. -/
theorem C9_after_adapt (f : FluidSolver) (maxVel : F64)
    (h0 : F64.lt (lit 0) f.DtMin = true) (hmm : F64.le f.DtMin f.DtMax = true)
    (_hF : F64.lt (lit 0) f.FrameLength = true) (_hv : F64.le (lit 0) maxVel = true)
    (hr : (f.AdaptTimestep maxVel).2 = .returned) :
    F64.le (f.AdaptTimestep maxVel).1.Dt (F64.div f.DtMin (lit 2)) = false
    ∧ ((f.AdaptTimestep maxVel).1.Dt = .nan
        ∨ F64.lt (F64.div f.DtMin (lit 2)) (f.AdaptTimestep maxVel).1.Dt = true)
    ∧ ((f.AdaptTimestep maxVel).1.Dt = .nan
        ∨ F64.lt (lit 0) (f.AdaptTimestep maxVel).1.Dt = true)
    ∧ (f.LockDt = true → (f.AdaptTimestep maxVel).1.Dt = f.Dt)
    ∧ (f.LockDt = false →
        (f.AdaptTimestep maxVel).1.Dt = f.cflProposal maxVel
        ∨ (f.AdaptTimestep maxVel).1.Dt
            = F64.add (F64.sub f.FrameLength f.TimePerFrame) (lit 1e-04)
        ∨ (f.AdaptTimestep maxVel).1.Dt
            = F64.mul (F64.add (F64.sub f.FrameLength f.TimePerFrame) (lit 1e-04)) (lit 0.5))
    ∧ (f.LockDt = false →
        FluidSolver.snapTest { f with Dt := f.cflProposal maxVel } = false →
        FluidSolver.splitTest { f with Dt := f.cflProposal maxVel } = false →
        (f.AdaptTimestep maxVel).1.Dt = f.cflProposal maxVel
        ∧ ((f.AdaptTimestep maxVel).1.Dt = .nan
          ∨ (F64.le f.DtMin (f.AdaptTimestep maxVel).1.Dt = true
            ∧ F64.le (f.AdaptTimestep maxVel).1.Dt f.DtMax = true))) := by
  have hle := (AdaptTimestep64_returned_iff f maxVel).mp hr
  have hh := F64.half_nonneg h0
  have hne : F64.div f.DtMin (lit 2) ≠ .nan := by
    intro e
    rw [e, lit_zero] at hh
    simp [F64.le] at hh
  refine ⟨hle, F64.gt_of_not_le64 hne hle, F64.pos_of_not_le hh hle, ?_, ?_, ?_⟩
  · intro hl
    rw [AdaptTimestep64_fst, adaptBody64_locked f maxVel hl]
  · intro hl
    rw [AdaptTimestep64_fst]
    cases hs : FluidSolver.snapTest { f with Dt := f.cflProposal maxVel } with
    | true =>
      rw [adaptBody64_snap f maxVel hl hs]
      exact Or.inr (Or.inl rfl)
    | false =>
      cases hc : FluidSolver.splitTest { f with Dt := f.cflProposal maxVel } with
      | true =>
        rw [adaptBody64_split f maxVel hl hs hc]
        exact Or.inr (Or.inr rfl)
      | false =>
        rw [adaptBody64_keep f maxVel hl hs hc]
        exact Or.inl rfl
  · intro hl hs hc
    have e : (f.AdaptTimestep maxVel).1.Dt = f.cflProposal maxVel := by
      rw [AdaptTimestep64_fst, adaptBody64_keep f maxVel hl hs hc]
    rw [e]
    exact ⟨rfl, (clamp64_bounds (f.cflRaw maxVel) f.DtMin f.DtMax hmm).1⟩

/-- C9 (amended), at `cruisingSolver` with `maxVel = 0`: the call returns with
`Dt = 0.2`, inside `[DtMin, DtMax] = [0.1, 0.2]`. -/
theorem C9_after_adapt_witness :
    (cruisingSolver.AdaptTimestep (lit 0)).2 = .returned
    ∧ (cruisingSolver.AdaptTimestep (lit 0)).1.Dt = lit 0.2
    ∧ F64.le (cruisingSolver.AdaptTimestep (lit 0)).1.Dt
        (F64.div cruisingSolver.DtMin (lit 2)) = false := by
  have h := C9_after_adapt cruisingSolver (lit 0) (by decide!) (by decide!) (by decide!)
    (by decide!) (by decide!)
  exact ⟨by decide!, by decide!, h.1⟩

end IEEE

/-! ## C10 -/

/-- Below the largest 64-bit value the wrap is invisible. -/
theorem wrapInt64_of_mem_range (n : Int) (hlo : -2 ^ 63 ≤ n) (hhi : n < 2 ^ 63) :
    wrapInt64 n = n := by
  unfold wrapInt64
  omega

namespace IEEE

/-- C10 (as stated, fails): on `lastFrameSolver` (`Frame = 2^63 - 1`,
`TimePerFrame + Dt = -1 < VectorEpsilon`) the boundary branch of `Step` runs
and `f.Frame++` wraps: `Frame` becomes `-2^63`, not `Frame + 1`, and
`TimeTotal` becomes `float64(-2^63) * FrameLength = -2^63`.  On
`roundedFrameSolver` (`Frame = 2^53`, `FrameLength = 1`) the branch runs too,
`Frame` becomes `2^53 + 1`, and `float64(f.Frame)` rounds it: `TimeTotal`
becomes `2^53`, not `Frame * FrameLength`. -/
theorem C10_counterexample :
    F64.lt (F64.add lastFrameSolver.TimePerFrame lastFrameSolver.Dt) (lit VectorEpsilon) = true
    ∧ lastFrameSolver.Frame = 2 ^ 63 - 1
    ∧ lastFrameSolver.Step.Frame = -2 ^ 63
    ∧ lastFrameSolver.Step.Frame ≠ lastFrameSolver.Frame + 1
    ∧ lastFrameSolver.Step.TimeTotal = .fin (-2 ^ 63)
    ∧ F64.lt (F64.add roundedFrameSolver.TimePerFrame roundedFrameSolver.Dt)
        (lit VectorEpsilon) = true
    ∧ roundedFrameSolver.FrameLength = .fin 1
    ∧ roundedFrameSolver.Step.Frame = 2 ^ 53 + 1
    ∧ roundedFrameSolver.Step.TimeTotal = .fin (2 ^ 53) := by
  decide!

/-- C10 (amended): `Step` adds `Dt` to `TimePerFrame` and to `TimeTotal`
(`float64` additions).  If the new `TimePerFrame` is below `VectorEpsilon`
(`0`), it increments `Frame` in 64-bit wrap-around arithmetic (`Frame + 1` for
every `Frame` below `2^63 - 1`, and `-2^63` at `Frame = 2^63 - 1`), overwrites
`TimeTotal` with `float64(Frame) * FrameLength` for the incremented `Frame`
(conversion and product rounded), sets `TimePerFrame = 0` and
`LockDt = false`, and changes no other field.  Otherwise `Frame` and `LockDt`
are unchanged, `TimePerFrame` and `TimeTotal` hold the rounded sums, and no
other field changes. -/
theorem C10_step_bookkeeping_wrapping (f : FluidSolver) :
    lit VectorEpsilon = .fin 0
    ∧ (F64.lt (F64.add f.TimePerFrame f.Dt) (lit VectorEpsilon) = true →
        f.Step = { f with
          TimePerFrame := lit 0
          TimeTotal := F64.mul (ofInt (wrapInt64 (f.Frame + 1))) f.FrameLength
          Frame := wrapInt64 (f.Frame + 1)
          LockDt := false }
        ∧ f.Step.TimeTotal = F64.mul (ofInt f.Step.Frame) f.FrameLength
        ∧ (-2 ^ 63 ≤ f.Frame → f.Frame < 2 ^ 63 - 1 → f.Step.Frame = f.Frame + 1)
        ∧ (f.Frame = 2 ^ 63 - 1 → f.Step.Frame = -2 ^ 63))
    ∧ (F64.lt (F64.add f.TimePerFrame f.Dt) (lit VectorEpsilon) = false →
        f.Step = { f with
          TimePerFrame := F64.add f.TimePerFrame f.Dt
          TimeTotal := F64.add f.TimeTotal f.Dt }
        ∧ f.Step.Frame = f.Frame
        ∧ f.Step.LockDt = f.LockDt
        ∧ f.Step.TimePerFrame = F64.add f.TimePerFrame f.Dt
        ∧ f.Step.TimeTotal = F64.add f.TimeTotal f.Dt) := by
  refine ⟨by decide!, ?_, ?_⟩
  · intro h
    have e := Step64_of_lt f h
    refine ⟨e, by rw [e], ?_, ?_⟩
    · intro hlo hhi
      rw [e]
      exact wrapInt64_of_mem_range (f.Frame + 1) (by omega) (by omega)
    · intro hmax
      rw [e]
      show wrapInt64 (f.Frame + 1) = -2 ^ 63
      rw [hmax]
      decide
  · intro h
    have e := Step64_of_not_lt f h
    refine ⟨e, ?_, ?_, ?_, ?_⟩ <;> rw [e]

/-- C10 (amended), at `rewindSolver` (`TimePerFrame = -2`, `Dt = 1`,
`Frame = 4`, `FrameLength = 0.1`, locked): the sum `-1` is below
`VectorEpsilon`, so `Step` yields `Frame = 5`, `TimeTotal = 5 * 0.1` rounded
to `float64` (which is `0.5`), `TimePerFrame = 0` and clears the lock. -/
theorem C10_step_bookkeeping_wrapping_witness :
    F64.lt (F64.add rewindSolver.TimePerFrame rewindSolver.Dt) (lit VectorEpsilon) = true
    ∧ rewindSolver.Step.Frame = 5
    ∧ rewindSolver.Step.TimeTotal = lit 0.5
    ∧ rewindSolver.Step.TimePerFrame = .fin 0
    ∧ rewindSolver.Step.LockDt = false := by
  have h := (C10_step_bookkeeping_wrapping rewindSolver).2.1 (by decide!)
  refine ⟨by decide!, ?_, ?_, ?_, ?_⟩
  · rw [h.2.2.1 (by decide) (by decide)]
    rfl
  · rw [h.1]
    decide!
  · rw [h.1]
    decide!
  · rw [h.1]

end IEEE

/-! ## Frame lemmas: which fields each method can change -/

theorem FluidSolver.adaptBody_frame_eq (f : FluidSolver) (maxVel : ℚ) :
    f.adaptBody maxVel
      = { f with Dt := (f.adaptBody maxVel).Dt, LockDt := (f.adaptBody maxVel).LockDt } := by
  unfold FluidSolver.adaptBody
  dsimp only
  split_ifs <;> rfl

theorem FluidSolver.Step_frame_eq (f : FluidSolver) :
    f.Step = { f with
      TimePerFrame := f.Step.TimePerFrame
      TimeTotal := f.Step.TimeTotal
      Frame := f.Step.Frame
      LockDt := f.Step.LockDt } := by
  unfold FluidSolver.Step
  dsimp only
  split_ifs <;> rfl

theorem FluidSolver.AdaptTimestep_eq_returned (f : FluidSolver) (maxVel : ℚ)
    (h : ¬ (f.adaptBody maxVel).Dt ≤ f.DtMin / 2) :
    f.AdaptTimestep maxVel = (f.adaptBody maxVel, .returned) := by
  refine Prod.ext (FluidSolver.AdaptTimestep_fst f maxVel) ?_
  rw [FluidSolver.AdaptTimestep_snd, if_neg h]

theorem FluidSolver.AdaptTimestep_eq_panicked (f : FluidSolver) (maxVel : ℚ)
    (h : (f.adaptBody maxVel).Dt ≤ f.DtMin / 2) :
    f.AdaptTimestep maxVel = (f.adaptBody maxVel, .panicked invalidDt) := by
  refine Prod.ext (FluidSolver.AdaptTimestep_fst f maxVel) ?_
  rw [FluidSolver.AdaptTimestep_snd, if_pos h]

theorem run_nil (f : FluidSolver) : run f [] = (f, .returned) := by
  rw [run]

theorem run_step (f : FluidSolver) (cs : List Call) :
    run f (.step :: cs) = run f.Step cs :=
  run_cons_returned f f.Step .step cs rfl

theorem run_adapt_returned (f : FluidSolver) (maxVel : ℚ) (cs : List Call)
    (h : ¬ (f.adaptBody maxVel).Dt ≤ f.DtMin / 2) :
    run f (.adapt maxVel :: cs) = run (f.adaptBody maxVel) cs :=
  run_cons_returned f (f.adaptBody maxVel) (.adapt maxVel) cs
    (FluidSolver.AdaptTimestep_eq_returned f maxVel h)

theorem run_adapt_panicked (f : FluidSolver) (maxVel : ℚ) (cs : List Call)
    (h : (f.adaptBody maxVel).Dt ≤ f.DtMin / 2) :
    run f (.adapt maxVel :: cs) = (f.adaptBody maxVel, .panicked invalidDt) :=
  run_cons_panicked f (f.adaptBody maxVel) (.adapt maxVel) cs invalidDt
    (FluidSolver.AdaptTimestep_eq_panicked f maxVel h)

/-- The configuration fields survive every run, whatever its outcome. -/
theorem run_config (cs : List Call) : ∀ f : FluidSolver,
    (run f cs).1.FrameLength = f.FrameLength
    ∧ (run f cs).1.CflCond = f.CflCond
    ∧ (run f cs).1.DtMin = f.DtMin
    ∧ (run f cs).1.DtMax = f.DtMax
    ∧ (run f cs).1.GridSize = f.GridSize
    ∧ (run f cs).1.Dim = f.Dim
    ∧ (run f cs).1.FourthDim = f.FourthDim := by
  induction cs with
  | nil =>
    intro f
    rw [run_nil]
    exact ⟨rfl, rfl, rfl, rfl, rfl, rfl, rfl⟩
  | cons c cs ih =>
    intro f
    cases c with
    | step =>
      rw [run_step]
      have e := FluidSolver.Step_frame_eq f
      obtain ⟨h1, h2, h3, h4, h5, h6, h7⟩ := ih f.Step
      rw [h1, h2, h3, h4, h5, h6, h7, e]
      exact ⟨rfl, rfl, rfl, rfl, rfl, rfl, rfl⟩
    | adapt maxVel =>
      have e := FluidSolver.adaptBody_frame_eq f maxVel
      by_cases h : (f.adaptBody maxVel).Dt ≤ f.DtMin / 2
      · rw [run_adapt_panicked f maxVel cs h, e]
        exact ⟨rfl, rfl, rfl, rfl, rfl, rfl, rfl⟩
      · rw [run_adapt_returned f maxVel cs h]
        obtain ⟨h1, h2, h3, h4, h5, h6, h7⟩ := ih (f.adaptBody maxVel)
        rw [h1, h2, h3, h4, h5, h6, h7, e]
        exact ⟨rfl, rfl, rfl, rfl, rfl, rfl, rfl⟩

/-! ## The invariant of normal runs -/

theorem Running.step {f : FluidSolver} (h : Running f) :
    f.Step = { f with TimePerFrame := f.TimePerFrame + f.Dt, TimeTotal := f.TimeTotal + f.Dt }
    ∧ Running f.Step := by
  obtain ⟨h1, h2, h3⟩ := h
  have hn : ¬ f.TimePerFrame + f.Dt < VectorEpsilon := by
    unfold VectorEpsilon
    exact not_lt.mpr (by linarith)
  have e := FluidSolver.Step_of_not_lt f hn
  refine ⟨e, ?_⟩
  rw [e]
  exact ⟨h1, by show 0 ≤ f.TimePerFrame + f.Dt; linarith, h3⟩

theorem Running.adapt {f : FluidSolver} (h : Running f) (maxVel : ℚ)
    (hr : ¬ (f.adaptBody maxVel).Dt ≤ f.DtMin / 2) : Running (f.adaptBody maxVel) := by
  obtain ⟨-, h2, h3⟩ := h
  have e := FluidSolver.adaptBody_frame_eq f maxVel
  refine ⟨by linarith [not_le.mp hr], ?_, ?_⟩
  · rw [e]
    exact h2
  · rw [e]
    exact h3

/-- From a running controller: no run changes `Frame`; `TimeTotal` and
`TimePerFrame` grow by the same amount; `TimePerFrame` never decreases; a run
that returns ends in a running controller; and a lock, once set, stays set
with `Dt` frozen. -/
theorem run_of_running (cs : List Call) : ∀ f : FluidSolver, Running f →
    (run f cs).1.Frame = f.Frame
    ∧ (run f cs).1.TimeTotal - (run f cs).1.TimePerFrame = f.TimeTotal - f.TimePerFrame
    ∧ f.TimePerFrame ≤ (run f cs).1.TimePerFrame
    ∧ ((run f cs).2 = .returned → Running (run f cs).1)
    ∧ (f.LockDt = true → (run f cs).1.LockDt = true ∧ (run f cs).1.Dt = f.Dt) := by
  induction cs with
  | nil =>
    intro f hf
    rw [run_nil]
    exact ⟨rfl, rfl, le_refl _, fun _ => hf, fun hl => ⟨hl, rfl⟩⟩
  | cons c cs ih =>
    intro f hf
    cases c with
    | step =>
      rw [run_step]
      obtain ⟨e, hs⟩ := hf.step
      obtain ⟨i1, i2, i3, i4, i5⟩ := ih f.Step hs
      have eF : f.Step.Frame = f.Frame := by rw [e]
      have eT : f.Step.TimeTotal = f.TimeTotal + f.Dt := by rw [e]
      have eP : f.Step.TimePerFrame = f.TimePerFrame + f.Dt := by rw [e]
      have eL : f.Step.LockDt = f.LockDt := by rw [e]
      have eD : f.Step.Dt = f.Dt := by rw [e]
      refine ⟨by rw [i1, eF], by rw [i2, eT, eP]; ring, ?_, i4, ?_⟩
      · have := hf.1
        rw [eP] at i3
        linarith
      · intro hl
        have := i5 (by rw [eL]; exact hl)
        rw [eD] at this
        exact this
    | adapt maxVel =>
      have e := FluidSolver.adaptBody_frame_eq f maxVel
      have eF : (f.adaptBody maxVel).Frame = f.Frame := by rw [e]
      have eT : (f.adaptBody maxVel).TimeTotal = f.TimeTotal := by rw [e]
      have eP : (f.adaptBody maxVel).TimePerFrame = f.TimePerFrame := by rw [e]
      by_cases h : (f.adaptBody maxVel).Dt ≤ f.DtMin / 2
      · rw [run_adapt_panicked f maxVel cs h]
        refine ⟨eF, by rw [eT, eP], by rw [eP], fun hr => Outcome.noConfusion hr, ?_⟩
        intro hl
        rw [FluidSolver.adaptBody_locked f maxVel hl]
        exact ⟨hl, rfl⟩
      · rw [run_adapt_returned f maxVel cs h]
        obtain ⟨i1, i2, i3, i4, i5⟩ := ih (f.adaptBody maxVel) (hf.adapt maxVel h)
        refine ⟨by rw [i1, eF], by rw [i2, eT, eP], by rw [eP] at i3; exact i3, i4, ?_⟩
        intro hl
        have eq := FluidSolver.adaptBody_locked f maxVel hl
        rw [eq] at i5
        rw [eq]
        exact i5 hl

/-! ## Runs from the default controller -/

theorem running_of_NewFluidSolver (gridSize : vec3 Int) (dim : Int) (fourthDim : Bool)
    (s : FluidSolver) (hs : NewFluidSolver gridSize dim fourthDim = .ok s) :
    Running s ∧ s.Frame = 0 ∧ s.TimeTotal = 0 ∧ s.TimePerFrame = 0 ∧ s.Dt = 1
    ∧ s.FrameLength = 1 ∧ s.LockDt = false := by
  have e := NewFluidSolver_ok_eq gridSize dim fourthDim s hs
  subst e
  refine ⟨⟨?_, ?_, ?_⟩, rfl, rfl, rfl, rfl, rfl, rfl⟩
  · show (0 : ℚ) < 1
    norm_num
  · show (0 : ℚ) ≤ 0
    norm_num
  · show (0 : ℚ) < 1
    norm_num

/-! ## C11 -/

namespace IEEE

/-- C11 (fails on the code): take the controller `NewFluidSolver` returns and
set `FrameLength = 0.8`, `DtMin = DtMax = 0.1`.  `AdaptTimestep 0` returns
with `Dt = 0.1`, and eight `Step` calls follow.  The eight `Dt` values sum to
exactly `1 * FrameLength` (`8 * 0.1 = 0.8` holds exactly for these two
`float64` values), yet the boundary branch never runs: `Frame` is still `0`
and `TimeTotal` is the accumulated `0.7999999999999999`, which differs from
`1 * FrameLength = 0.8` and from `Frame * FrameLength = 0`. -/
theorem C11_total_time_drifts :
    NewFluidSolver ⟨64, 64, 64⟩ 3 false = .ok freshSolver
    ∧ driftSolver = withConfig freshSolver (lit 0.8) (lit 1000) (lit 0.1) (lit 0.1)
    ∧ (driftSolver.AdaptTimestep (lit 0)).2 = .returned
    ∧ (driftSolver.AdaptTimestep (lit 0)).1.Dt = .fin (3602879701896397 / 2 ^ 55)
    ∧ driftSolver.FrameLength = .fin (8 * (3602879701896397 / 2 ^ 55))
    ∧ (run driftSolver
        [.adapt (lit 0), .step, .step, .step, .step, .step, .step, .step, .step]).2
        = .returned
    ∧ (run driftSolver
        [.adapt (lit 0), .step, .step, .step, .step, .step, .step, .step, .step]).1.Dt
        = .fin (3602879701896397 / 2 ^ 55)
    ∧ (run driftSolver
        [.adapt (lit 0), .step, .step, .step, .step, .step, .step, .step, .step]).1.TimeTotal
        = .fin (7205759403792793 / 2 ^ 53)
    ∧ (run driftSolver
        [.adapt (lit 0), .step, .step, .step, .step, .step, .step, .step, .step]).1.TimeTotal
        ≠ driftSolver.FrameLength
    ∧ (run driftSolver
        [.adapt (lit 0), .step, .step, .step, .step, .step, .step, .step, .step]).1.Frame
        = 0 :=
  ⟨NewFluidSolver64_fresh, by decide!⟩

end IEEE

/-! ## C12 -/

/-- C12: on an unlocked controller with `DtMin > 0` and
`TimePerFrame = t0 >= 0` whose proposal triggers the split branch, the
sequence `AdaptTimestep m1; Step; AdaptTimestep m2; Step` returns normally for
any `m1`, `m2`; both substeps have the length
`Dt = (FrameLength - t0 + 1e-4)/2` (the second `AdaptTimestep` leaves the
controller as it is); and the two lengths sum to `FrameLength - t0 + 1e-4`,
which is what `TimePerFrame` has grown by. -/
theorem C12_two_equal_half_steps (f : FluidSolver) (m1 m2 : ℚ) (hl : f.LockDt = false)
    (hmin : 0 < f.DtMin) (ht : 0 ≤ f.TimePerFrame)
    (hs : f.TimePerFrame + f.cflProposal m1 * 1.05 ≤ f.FrameLength)
    (hc : f.TimePerFrame + f.cflProposal m1 + f.DtMin > f.FrameLength
      ∨ f.TimePerFrame + f.cflProposal m1 * 1.25 > f.FrameLength) :
    (f.AdaptTimestep m1).2 = .returned
    ∧ (f.AdaptTimestep m1).1.Dt = (f.FrameLength - f.TimePerFrame + 1e-4) / 2
    ∧ ((f.AdaptTimestep m1).1.Step.AdaptTimestep m2).2 = .returned
    ∧ ((f.AdaptTimestep m1).1.Step.AdaptTimestep m2).1 = (f.AdaptTimestep m1).1.Step
    ∧ ((f.AdaptTimestep m1).1.Step.AdaptTimestep m2).1.Dt
        = (f.FrameLength - f.TimePerFrame + 1e-4) / 2
    ∧ (f.AdaptTimestep m1).1.Dt + ((f.AdaptTimestep m1).1.Step.AdaptTimestep m2).1.Dt
        = f.FrameLength - f.TimePerFrame + 1e-4
    ∧ (run f [.adapt m1, .step, .adapt m2, .step]).2 = .returned
    ∧ (run f [.adapt m1, .step, .adapt m2, .step]).1.TimePerFrame
        = f.TimePerFrame + (f.FrameLength - f.TimePerFrame + 1e-4) := by
  have hp := FluidSolver.cflProposal_ge f m1
  have hb : f.adaptBody m1
      = { f with Dt := (f.FrameLength - f.TimePerFrame + 1e-4) * 0.5, LockDt := true } :=
    FluidSolver.adaptBody_split f m1 hl (not_lt.mpr hs) hc
  have hD : (f.adaptBody m1).Dt = (f.FrameLength - f.TimePerFrame + 1e-4) / 2 := by
    rw [hb]
    show (f.FrameLength - f.TimePerFrame + 1e-4) * 0.5 = _
    norm_num
    ring
  have hbig : f.DtMin / 2 < (f.FrameLength - f.TimePerFrame + 1e-4) / 2 := by
    norm_num at hs ⊢
    linarith
  have hr1 : ¬ (f.adaptBody m1).Dt ≤ f.DtMin / 2 := by
    rw [hD]
    exact not_le.mpr hbig
  have a1 := FluidSolver.AdaptTimestep_eq_returned f m1 hr1
  have hrun1 : Running (f.adaptBody m1) := by
    refine ⟨?_, ?_, ?_⟩
    · rw [hD]
      linarith
    · rw [hb]
      exact ht
    · rw [hb]
      exact hmin
  obtain ⟨e2, hrun2⟩ := hrun1.step
  have hL2 : (f.adaptBody m1).Step.LockDt = true := by
    rw [e2, hb]
  have hD2 : (f.adaptBody m1).Step.Dt = (f.FrameLength - f.TimePerFrame + 1e-4) / 2 := by
    rw [e2]
    exact hD
  have hM2 : (f.adaptBody m1).Step.DtMin = f.DtMin := by
    rw [e2, hb]
  have hP2 : (f.adaptBody m1).Step.TimePerFrame
      = f.TimePerFrame + (f.FrameLength - f.TimePerFrame + 1e-4) / 2 := by
    rw [e2]
    show (f.adaptBody m1).TimePerFrame + (f.adaptBody m1).Dt = _
    rw [hD, hb]
  have hb2 : (f.adaptBody m1).Step.adaptBody m2 = (f.adaptBody m1).Step :=
    FluidSolver.adaptBody_locked _ m2 hL2
  have hr2 : ¬ ((f.adaptBody m1).Step.adaptBody m2).Dt ≤ (f.adaptBody m1).Step.DtMin / 2 := by
    rw [hb2, hD2, hM2]
    exact not_le.mpr hbig
  have a2 := FluidSolver.AdaptTimestep_eq_returned (f.adaptBody m1).Step m2 hr2
  obtain ⟨e3, -⟩ := hrun2.step
  rw [a1]
  dsimp only
  rw [a2]
  dsimp only
  refine ⟨rfl, hD, rfl, hb2, by rw [hb2, hD2], by rw [hb2, hD2, hD]; ring, ?_, ?_⟩
  · rw [run_adapt_returned f m1 _ hr1, run_step, run_adapt_returned _ m2 _ hr2, run_step,
      run_nil]
  · rw [run_adapt_returned f m1 _ hr1, run_step, run_adapt_returned _ m2 _ hr2, run_step,
      run_nil, hb2, e3]
    show (f.adaptBody m1).Step.TimePerFrame + (f.adaptBody m1).Step.Dt = _
    rw [hP2, hD2]
    ring

/-- C12, at `splitSolver` (`t0 = 0.5`, `FrameLength = 1`) with velocities `0`
and `1000`: two substeps of `0.25005`, and `TimePerFrame` ends at `1.0001`. -/
theorem C12_two_equal_half_steps_witness :
    (splitSolver.AdaptTimestep 0).1.Dt = 0.25005
    ∧ ((splitSolver.AdaptTimestep 0).1.Step.AdaptTimestep 1000).1.Dt = 0.25005
    ∧ (run splitSolver [.adapt 0, .step, .adapt 1000, .step]).2 = .returned
    ∧ (run splitSolver [.adapt 0, .step, .adapt 1000, .step]).1.TimePerFrame = 1.0001 := by
  have hp : splitSolver.cflProposal 0 = 0.4 := by
    simp [FluidSolver.cflProposal, splitSolver]
    norm_num
  have h := C12_two_equal_half_steps splitSolver 0 1000 rfl
    (by norm_num [splitSolver]) (by norm_num [splitSolver])
    (by rw [hp]; norm_num [splitSolver])
    (Or.inl (by rw [hp]; norm_num [splitSolver]))
  refine ⟨?_, ?_, h.2.2.2.2.2.2.1, ?_⟩
  · rw [h.2.1]
    norm_num [splitSolver]
  · rw [h.2.2.2.2.1]
    norm_num [splitSolver]
  · rw [h.2.2.2.2.2.2.2]
    norm_num [splitSolver]

/-! ## C13 -/

/-- C13: for every grid size, every `dim` in `{2, 3}` and every `fourthDim`,
`NewFluidSolver` succeeds and returns the controller with `Dt = 1`,
`DtMin = 1`, `DtMax = 1`, `CflCond = 1000`, `FrameLength = 1`, `Frame = 0`,
`TimePerFrame = 0`, `TimeTotal = 0`, `LockDt = false` and `GridSize`, `Dim`,
`FourthDim` equal to the arguments. -/
theorem C13_construction_defaults (gridSize : vec3 Int) (dim : Int) (fourthDim : Bool)
    (hd : dim = 2 ∨ dim = 3) :
    NewFluidSolver gridSize dim fourthDim
      = .ok { Dt := 1, LockDt := false, TimePerFrame := 0, TimeTotal := 0, Frame := 0,
              FrameLength := 1, CflCond := 1000, DtMin := 1, DtMax := 1,
              GridSize := gridSize, Dim := dim, FourthDim := fourthDim } := by
  unfold NewFluidSolver
  have h4 : ¬ (dim = 4 ∧ (!fourthDim) = true) := by
    rintro ⟨h, -⟩
    omega
  have h23 : ¬ (dim ≠ 2 ∧ dim ≠ 3) := by
    rintro ⟨h2, h3⟩
    omega
  rw [if_neg h4, if_neg h23]

/-- C13, for a 32x32x1 grid in 2D with the fourth dimension switched on. -/
theorem C13_construction_defaults_witness :
    NewFluidSolver ⟨32, 32, 1⟩ 2 true
      = .ok { Dt := 1, LockDt := false, TimePerFrame := 0, TimeTotal := 0, Frame := 0,
              FrameLength := 1, CflCond := 1000, DtMin := 1, DtMax := 1,
              GridSize := ⟨32, 32, 1⟩, Dim := 2, FourthDim := true } :=
  C13_construction_defaults ⟨32, 32, 1⟩ 2 true (Or.inl rfl)

/-! ## C14 -/

/-- C14: `NewFluidSolver` fails (a panic, no controller) if and only if `dim`
is neither `2` nor `3`; it succeeds if and only if `dim` is `2` or `3`; and
`dim = 4` fails for `fourthDim = true` (message "Only 2D and 3D solvers
allowed.") and for `fourthDim = false` (message "Don't create 4D
solvers..."). -/
theorem C14_construction_rejection (gridSize : vec3 Int) (dim : Int) (fourthDim : Bool) :
    ((∃ msg, NewFluidSolver gridSize dim fourthDim = .error msg) ↔ (dim ≠ 2 ∧ dim ≠ 3))
    ∧ ((∃ s, NewFluidSolver gridSize dim fourthDim = .ok s) ↔ (dim = 2 ∨ dim = 3))
    ∧ NewFluidSolver gridSize 4 true = .error "Only 2D and 3D solvers allowed."
    ∧ NewFluidSolver gridSize 4 false
        = .error "Don't create 4D solvers, use 3D with fourthDim parameter = true instead." := by
  refine ⟨?_, ?_, ?_, ?_⟩
  · constructor
    · rintro ⟨msg, hm⟩
      by_contra hn
      have hd : dim = 2 ∨ dim = 3 := by omega
      have h4 : ¬ (dim = 4 ∧ (!fourthDim) = true) := by
        rintro ⟨h, -⟩
        omega
      unfold NewFluidSolver at hm
      rw [if_neg h4, if_neg hn] at hm
      exact Except.noConfusion hm
    · intro hn
      unfold NewFluidSolver
      by_cases h4 : dim = 4 ∧ (!fourthDim) = true
      · exact ⟨_, if_pos h4⟩
      · rw [if_neg h4, if_pos hn]
        exact ⟨_, rfl⟩
  · constructor
    · rintro ⟨s, hm⟩
      by_contra hn
      have hd : dim ≠ 2 ∧ dim ≠ 3 := by omega
      unfold NewFluidSolver at hm
      by_cases h4 : dim = 4 ∧ (!fourthDim) = true
      · rw [if_pos h4] at hm
        exact Except.noConfusion hm
      · rw [if_neg h4, if_pos hd] at hm
        exact Except.noConfusion hm
    · intro hd
      have h4 : ¬ (dim = 4 ∧ (!fourthDim) = true) := by
        rintro ⟨h, -⟩
        omega
      have h23 : ¬ (dim ≠ 2 ∧ dim ≠ 3) := by
        rintro ⟨h2, h3⟩
        omega
      unfold NewFluidSolver
      rw [if_neg h4, if_neg h23]
      exact ⟨_, rfl⟩
  · unfold NewFluidSolver
    rw [if_neg (by simp), if_pos (by decide)]
  · unfold NewFluidSolver
    rw [if_pos (by simp)]

/-! ## C15 -/

theorem FluidSolver.Step_Frame (f : FluidSolver) :
    f.Step.Frame
      = if f.TimePerFrame + f.Dt < VectorEpsilon then wrapInt64 (f.Frame + 1) else f.Frame := by
  split_ifs with h
  · rw [FluidSolver.Step_of_lt f h]
  · rw [FluidSolver.Step_of_not_lt f h]

/-- While the counter stays below the largest 64-bit value, a run never
decreases `Frame` and raises it by at most one per call. -/
theorem run_frame_bounds (cs : List Call) : ∀ f : FluidSolver,
    -2 ^ 63 ≤ f.Frame → f.Frame + cs.length < 2 ^ 63 →
    f.Frame ≤ (run f cs).1.Frame ∧ (run f cs).1.Frame ≤ f.Frame + cs.length := by
  induction cs with
  | nil =>
    intro f _ _
    rw [run_nil]
    simp
  | cons c cs ih =>
    intro f hlo hhi
    rw [List.length_cons] at hhi ⊢
    push_cast at hhi ⊢
    cases c with
    | step =>
      rw [run_step]
      have hF := FluidSolver.Step_Frame f
      have hF2 : f.Step.Frame = f.Frame ∨ f.Step.Frame = f.Frame + 1 := by
        rw [hF]
        split_ifs
        · right
          exact wrapInt64_of_mem_range _ (by omega) (by omega)
        · left
          rfl
      obtain ⟨i1, i2⟩ := ih f.Step (by omega) (by omega)
      constructor <;> omega
    | adapt maxVel =>
      have e := FluidSolver.adaptBody_frame_eq f maxVel
      have eF : (f.adaptBody maxVel).Frame = f.Frame := by rw [e]
      by_cases h : (f.adaptBody maxVel).Dt ≤ f.DtMin / 2
      · rw [run_adapt_panicked f maxVel cs h, eF]
        constructor <;> omega
      · rw [run_adapt_returned f maxVel cs h]
        obtain ⟨i1, i2⟩ := ih (f.adaptBody maxVel) (by omega) (by omega)
        constructor <;> omega

/-- C15 (as stated, fails): on `lastFrameSolver` (`Frame = 2^63 - 1`,
`TimePerFrame + Dt = -1`) the boundary test of `Step` fires and the 64-bit
increment wraps: `Frame` becomes `-2^63`, which is neither `Frame` nor
`Frame + 1`, and is smaller than before. -/
theorem C15_counterexample :
    lastFrameSolver.TimePerFrame + lastFrameSolver.Dt < VectorEpsilon
    ∧ lastFrameSolver.Frame = 2 ^ 63 - 1
    ∧ lastFrameSolver.Step.Frame = -2 ^ 63
    ∧ ¬ (lastFrameSolver.Step.Frame = lastFrameSolver.Frame
        ∨ lastFrameSolver.Step.Frame = lastFrameSolver.Frame + 1)
    ∧ lastFrameSolver.Step.Frame < lastFrameSolver.Frame := by
  have hlt : lastFrameSolver.TimePerFrame + lastFrameSolver.Dt < VectorEpsilon := by
    norm_num [lastFrameSolver, VectorEpsilon]
  have hF : lastFrameSolver.Frame = 2 ^ 63 - 1 := rfl
  have hS : lastFrameSolver.Step.Frame = -2 ^ 63 := by
    rw [FluidSolver.Step_Frame, if_pos hlt, hF]
    decide
  refine ⟨hlt, hF, hS, ?_, ?_⟩
  · rw [hS, hF]
    decide
  · rw [hS, hF]
    decide

/-- C15 (amended): `AdaptTimestep` leaves `Frame` unchanged.  On a controller
whose `Frame` is a 64-bit value below the largest one, `Step` yields
`Frame` or `Frame + 1`, the latter exactly when its boundary test fires; and
along every sequence of calls that keeps the counter below `2^63`, `Frame`
never decreases (and grows by at most one per call).  From a constructed
controller `Frame >= 0` after every sequence of calls. -/
theorem C15_frame_monotone (f : FluidSolver) (maxVel : ℚ) (cs : List Call)
    (hlo : -2 ^ 63 ≤ f.Frame) (hhi : f.Frame < 2 ^ 63 - 1) :
    (f.AdaptTimestep maxVel).1.Frame = f.Frame
    ∧ (f.Step.Frame = f.Frame ∨ f.Step.Frame = f.Frame + 1)
    ∧ (f.Step.Frame = f.Frame + 1 ↔ f.TimePerFrame + f.Dt < VectorEpsilon)
    ∧ (f.Frame + cs.length < 2 ^ 63 →
        f.Frame ≤ (run f cs).1.Frame ∧ (run f cs).1.Frame ≤ f.Frame + cs.length)
    ∧ (∀ (gridSize : vec3 Int) (dim : Int) (fourthDim : Bool) (s : FluidSolver),
        NewFluidSolver gridSize dim fourthDim = .ok s → 0 ≤ (run s cs).1.Frame) := by
  have hw : wrapInt64 (f.Frame + 1) = f.Frame + 1 :=
    wrapInt64_of_mem_range _ (by omega) (by omega)
  have hF := FluidSolver.Step_Frame f
  refine ⟨?_, ?_, ?_, fun hb => run_frame_bounds cs f hlo hb, ?_⟩
  · rw [FluidSolver.AdaptTimestep_fst, FluidSolver.adaptBody_frame_eq]
  · rw [hF]
    split_ifs
    · exact Or.inr hw
    · exact Or.inl rfl
  · rw [hF]
    split_ifs with h
    · exact ⟨fun _ => h, fun _ => hw⟩
    · exact ⟨fun e => by omega, fun e => absurd e h⟩
  · intro gridSize dim fourthDim s hs
    obtain ⟨hrun, h0, -⟩ := running_of_NewFluidSolver gridSize dim fourthDim s hs
    rw [(run_of_running cs s hrun).1, h0]

/-- C15 (amended), at `rewindSolver` (`Frame = 4`, boundary test fires): one
`Step` gives `Frame = 5`, and two steps never decrease it. -/
theorem C15_frame_monotone_witness :
    rewindSolver.Step.Frame = rewindSolver.Frame + 1
    ∧ rewindSolver.Frame ≤ (run rewindSolver [.step, .step]).1.Frame := by
  have h := C15_frame_monotone rewindSolver 0 [.step, .step]
    (by norm_num [rewindSolver]) (by norm_num [rewindSolver])
  refine ⟨h.2.2.1.mpr (by norm_num [rewindSolver, VectorEpsilon]), ?_⟩
  exact (h.2.2.2.1 (by norm_num [rewindSolver])).1

/-! ## C16 -/

/-- C16: `AdaptTimestep` changes at most `Dt` and `LockDt`; `Step` changes at
most `TimePerFrame`, `TimeTotal`, `Frame` and `LockDt`; and `FrameLength`,
`CflCond`, `DtMin`, `DtMax`, `GridSize`, `Dim` and `FourthDim` are the same
before and after any sequence of `Step` and `AdaptTimestep` calls. -/
theorem C16_configuration_immutable (f : FluidSolver) (maxVel : ℚ) (cs : List Call) :
    (f.AdaptTimestep maxVel).1
        = { f with
            Dt := (f.AdaptTimestep maxVel).1.Dt
            LockDt := (f.AdaptTimestep maxVel).1.LockDt }
    ∧ f.Step
        = { f with
            TimePerFrame := f.Step.TimePerFrame
            TimeTotal := f.Step.TimeTotal
            Frame := f.Step.Frame
            LockDt := f.Step.LockDt }
    ∧ (run f cs).1.FrameLength = f.FrameLength
    ∧ (run f cs).1.CflCond = f.CflCond
    ∧ (run f cs).1.DtMin = f.DtMin
    ∧ (run f cs).1.DtMax = f.DtMax
    ∧ (run f cs).1.GridSize = f.GridSize
    ∧ (run f cs).1.Dim = f.Dim
    ∧ (run f cs).1.FourthDim = f.FourthDim := by
  refine ⟨?_, FluidSolver.Step_frame_eq f, run_config cs f⟩
  rw [FluidSolver.AdaptTimestep_fst]
  exact FluidSolver.adaptBody_frame_eq f maxVel

/-! ## C17 -/

namespace IEEE

/-- C17 (as stated, fails): from the controller `NewFluidSolver` returns, with
the configuration set to `FrameLength = 1e30`, `CflCond = 1e25`, `DtMin = 1`,
`DtMax = 1e20`, the calls `AdaptTimestep 0; Step; AdaptTimestep 1e30` all
return, and the next `Step` computes `1e20 + 1 = 1e20`: `TimePerFrame` does
not increase.  With `FrameLength = 1e300`, `CflCond = 1e200`, `DtMin = 1`,
`DtMax = 1e200`, the calls `AdaptTimestep 0; Step; AdaptTimestep 1e200` all
return and leave `Dt = NaN`, so `Dt > 0` is false. -/
theorem C17_counterexample :
    (F64.lt (lit 0) (lit 1) = true
      ∧ (run (withConfig freshSolver (lit 1e30) (lit 1e25) (lit 1) (lit 1e20))
          [.adapt (lit 0), .step, .adapt (lit 1e30)]).2 = .returned
      ∧ (run (withConfig freshSolver (lit 1e30) (lit 1e25) (lit 1) (lit 1e20))
          [.adapt (lit 0), .step, .adapt (lit 1e30)]).1.TimePerFrame = lit 1e20
      ∧ (run (withConfig freshSolver (lit 1e30) (lit 1e25) (lit 1) (lit 1e20))
          [.adapt (lit 0), .step, .adapt (lit 1e30)]).1.Dt = lit 1
      ∧ (run (withConfig freshSolver (lit 1e30) (lit 1e25) (lit 1) (lit 1e20))
          [.adapt (lit 0), .step, .adapt (lit 1e30)]).1.Step.TimePerFrame = lit 1e20
      ∧ F64.lt
          (run (withConfig freshSolver (lit 1e30) (lit 1e25) (lit 1) (lit 1e20))
            [.adapt (lit 0), .step, .adapt (lit 1e30)]).1.TimePerFrame
          (run (withConfig freshSolver (lit 1e30) (lit 1e25) (lit 1) (lit 1e20))
            [.adapt (lit 0), .step, .adapt (lit 1e30)]).1.Step.TimePerFrame = false)
    ∧ ((run (withConfig freshSolver (lit 1e300) (lit 1e200) (lit 1) (lit 1e200))
          [.adapt (lit 0), .step, .adapt (lit 1e200)]).2 = .returned
      ∧ (run (withConfig freshSolver (lit 1e300) (lit 1e200) (lit 1) (lit 1e200))
          [.adapt (lit 0), .step, .adapt (lit 1e200)]).1.Dt = .nan
      ∧ F64.lt (lit 0)
          (run (withConfig freshSolver (lit 1e300) (lit 1e200) (lit 1) (lit 1e200))
            [.adapt (lit 0), .step, .adapt (lit 1e200)]).1.Dt = false) := by
  decide!

/-- C17 (amended): take a controller returned by `NewFluidSolver`, set its
configuration to any values with `DtMin > 0`, and let any sequence of `Step`
and `AdaptTimestep` calls return normally, ending in `g`.  Then `Dt` is
positive or NaN and `TimePerFrame` is non-negative or NaN in `g`, so the
boundary test of `Step` is false: `Frame` is `0` and stays `0` after a further
`Step` and after any further calls; `Step` never resets `TimePerFrame` but
replaces it by the `float64` sum `TimePerFrame + Dt` (which need not be
larger), and leaves `LockDt` and `Dt` alone; and if `g` is locked then after
any further calls it is still locked with the same `Dt`. -/
theorem C17_boundary_branch_never_taken (gridSize : vec3 Int) (dim : Int) (fourthDim : Bool)
    (s : FluidSolver) (hs : NewFluidSolver gridSize dim fourthDim = .ok s)
    (frameLength cflCond dtMin dtMax : F64) (hmin : F64.lt (lit 0) dtMin = true)
    (cs : List Call) (g : FluidSolver)
    (hg : run (withConfig s frameLength cflCond dtMin dtMax) cs = (g, .returned))
    (cs2 : List Call) :
    (g.Dt = .nan ∨ F64.lt (lit 0) g.Dt = true)
    ∧ (g.TimePerFrame = .nan ∨ F64.le (lit 0) g.TimePerFrame = true)
    ∧ F64.lt (F64.add g.TimePerFrame g.Dt) (lit VectorEpsilon) = false
    ∧ g.Frame = 0
    ∧ g.Step.Frame = 0
    ∧ g.Step.TimePerFrame = F64.add g.TimePerFrame g.Dt
    ∧ g.Step.TimeTotal = F64.add g.TimeTotal g.Dt
    ∧ g.Step.LockDt = g.LockDt
    ∧ g.Step.Dt = g.Dt
    ∧ (run g cs2).1.Frame = 0
    ∧ (g.LockDt = true → (run g cs2).1.LockDt = true ∧ (run g cs2).1.Dt = g.Dt) := by
  have e0 := NewFluidSolver64_ok_eq gridSize dim fourthDim s hs
  have hrun0 : Running (withConfig s frameLength cflCond dtMin dtMax) := by
    subst e0
    refine ⟨Or.inr ?_, Or.inr ?_, hmin⟩
    · show F64.lt (lit 0) (lit 1) = true
      decide!
    · show F64.le (lit 0) (lit 0) = true
      decide!
  have hF0 : (withConfig s frameLength cflCond dtMin dtMax).Frame = 0 := by
    subst e0
    rfl
  obtain ⟨i1, i4, -⟩ := run64_of_running cs _ hrun0
  rw [hg] at i1 i4
  have hrun : Running g := i4 rfl
  have hF : g.Frame = 0 := by
    rw [i1]
    exact hF0
  obtain ⟨hn, e, -⟩ := hrun.step64
  obtain ⟨j1, -, j5⟩ := run64_of_running cs2 g hrun
  exact ⟨hrun.1, hrun.2.1, hn, hF, by rw [e]; exact hF, by rw [e], by rw [e], by rw [e],
    by rw [e], by rw [j1, hF], j5⟩

/-- C17 (amended), at the fresh 3D controller configured with
`FrameLength = 1`, `CflCond = 1000`, `DtMin = 0.2`, `DtMax = 0.4`, after
`AdaptTimestep 0; Step` (which returns, with `Dt = 0.4`): `Frame` is `0` and
stays `0` over a further `AdaptTimestep 0; Step; Step`. -/
theorem C17_boundary_branch_never_taken_witness :
    (run (withConfig freshSolver (lit 1) (lit 1000) (lit 0.2) (lit 0.4))
        [.adapt (lit 0), .step]).1.Dt = lit 0.4
    ∧ (run (withConfig freshSolver (lit 1) (lit 1000) (lit 0.2) (lit 0.4))
        [.adapt (lit 0), .step]).1.Frame = 0
    ∧ (run (run (withConfig freshSolver (lit 1) (lit 1000) (lit 0.2) (lit 0.4))
        [.adapt (lit 0), .step]).1 [.adapt (lit 0), .step, .step]).1.Frame = 0 := by
  have hr : (run (withConfig freshSolver (lit 1) (lit 1000) (lit 0.2) (lit 0.4))
      [.adapt (lit 0), .step]).2 = .returned := by decide!
  have h := C17_boundary_branch_never_taken ⟨64, 64, 64⟩ 3 false freshSolver
    NewFluidSolver64_fresh (lit 1) (lit 1000) (lit 0.2) (lit 0.4) (by decide!)
    [.adapt (lit 0), .step]
    (run (withConfig freshSolver (lit 1) (lit 1000) (lit 0.2) (lit 0.4))
      [.adapt (lit 0), .step]).1
    (Prod.ext rfl hr)
    [.adapt (lit 0), .step, .step]
  exact ⟨by decide!, h.2.2.2.1, h.2.2.2.2.2.2.2.2.2.1⟩

end IEEE

/-! ## C18 -/

namespace IEEE

/-- C18, counterexample: with `Dt = CflCond = 1e200`, `DtMin = 0.1` and
`DtMax = 0.2` the proposal for velocity 0 is `DtMax = 0.2`, while for the
larger velocity `1e200` both products overflow, the quotient is `Inf / Inf`
and the proposal is NaN, which is not at most `0.2`. -/
theorem C18_counterexample :
    F64.lt (lit 0) hugeSolver.Dt = true
      ∧ F64.lt (lit 0) hugeSolver.CflCond = true
      ∧ F64.le (lit 0) (lit 0) = true
      ∧ F64.le (lit 0) (lit 1e200) = true
      ∧ hugeSolver.cflProposal (lit 0) = lit 0.2
      ∧ hugeSolver.cflProposal (lit 1e200) = .nan
      ∧ F64.le (hugeSolver.cflProposal (lit 1e200)) (hugeSolver.cflProposal (lit 0))
          = false := by
  decide!

/-- C18, amended: for a controller with `Dt > 0` and `CflCond > 0` and
velocities `0 <= v1 <= v2`, the clamped CFL proposal for `v2` is at most the
proposal for `v1`, or it is NaN. -/
theorem C18_proposal_antitone_or_nan (f : FluidSolver) (v1 v2 : F64)
    (hDt : F64.lt (lit 0) f.Dt = true) (hC : F64.lt (lit 0) f.CflCond = true)
    (h1 : F64.le (lit 0) v1 = true) (h12 : F64.le v1 v2 = true) :
    f.cflProposal v2 = .nan
      ∨ F64.le (f.cflProposal v2) (f.cflProposal v1) = true :=
  clamp64_antitone f.DtMin f.DtMax (cflRaw64_antitone f v1 v2 hDt hC h1 h12)

/-- C18, witness: at `Dt = 0.1`, `CflCond = 1000`, `DtMin = 0.1`,
`DtMax = 0.2` the proposal for velocity 10000 is `0.1`, at most the proposal
`0.2` for velocity 0. -/
theorem C18_proposal_antitone_or_nan_witness :
    (F64.lt (lit 0) cruisingSolver.Dt = true
      ∧ F64.lt (lit 0) cruisingSolver.CflCond = true
      ∧ F64.le (lit 0) (lit 0) = true
      ∧ F64.le (lit 0) (lit 10000) = true)
    ∧ cruisingSolver.cflProposal (lit 0) = lit 0.2
    ∧ cruisingSolver.cflProposal (lit 10000) = lit 0.1
    ∧ (cruisingSolver.cflProposal (lit 10000) = .nan
      ∨ F64.le (cruisingSolver.cflProposal (lit 10000))
          (cruisingSolver.cflProposal (lit 0)) = true) :=
  ⟨by decide!, by decide!, by decide!,
    C18_proposal_antitone_or_nan cruisingSolver (lit 0) (lit 10000)
      (by decide!) (by decide!) (by decide!) (by decide!)⟩

end IEEE

/-! ## C19 -/

theorem wrapInt64_mem_range (n : Int) : -2 ^ 63 ≤ wrapInt64 n ∧ wrapInt64 n < 2 ^ 63 := by
  unfold wrapInt64
  constructor <;> omega

/-- On `int64`, `abs` negates: `abs (ls - 1)` is negative as soon as
`ls > 1`, so `norm` returns `1` for every vector with `normSquare > 1`. -/
theorem norm_int64_of_one_lt (mathSqrt : ℚ → ℚ) (v : vec3 Int)
    (h : 1 < normSquare int64 v) : norm mathSqrt int64 v = 1 := by
  obtain ⟨-, hhi⟩ : -2 ^ 63 ≤ normSquare int64 v ∧ normSquare int64 v < 2 ^ 63 := by
    unfold normSquare int64
    exact wrapInt64_mem_range _
  have hone : int64.conv 1 = 1 := by decide
  have hneg : int64.conv (-1) = -1 := by decide
  have hzero : int64.conv (VectorEpsilonConst * VectorEpsilonConst) = 0 := by decide
  have hsub : int64.sub (normSquare int64 v) (int64.conv 1) = normSquare int64 v - 1 := by
    rw [hone]
    exact wrapInt64_of_mem_range _ (by omega) (by omega)
  have habs : abs int64 (int64.sub (normSquare int64 v) (int64.conv 1))
      = -(normSquare int64 v - 1) := by
    unfold abs
    rw [hsub, hneg]
    show wrapInt64 ((normSquare int64 v - 1) * -1) = _
    rw [wrapInt64_of_mem_range _ (by omega) (by omega)]
    ring
  have hle : int64.le (normSquare int64 v)
      (int64.conv (VectorEpsilonConst * VectorEpsilonConst)) = false := by
    rw [hzero]
    show decide (normSquare int64 v ≤ 0) = false
    exact decide_eq_false (by omega)
  have hlt : int64.lt (abs int64 (int64.sub (normSquare int64 v) (int64.conv 1)))
      (int64.conv (VectorEpsilonConst * VectorEpsilonConst)) = true := by
    rw [habs, hzero]
    show decide (-(normSquare int64 v - 1) < 0) = true
    exact decide_eq_true (by omega)
  unfold norm
  dsimp only
  rw [hle, hlt]
  exact hone

/-- On `float64` likewise: `norm` returns `1` for every vector with
`normSquare > 1`. -/
theorem norm_float64_of_one_lt (mathSqrt : ℚ → ℚ) (v : vec3 ℚ)
    (h : 1 < normSquare float64 v) : norm mathSqrt float64 v = 1 := by
  have hzero : float64.conv (VectorEpsilonConst * VectorEpsilonConst) = 0 := by
    simp [float64, VectorEpsilonConst]
  have hone : float64.conv 1 = 1 := by
    simp [float64]
  have habs : abs float64 (float64.sub (normSquare float64 v) (float64.conv 1))
      = -(normSquare float64 v - 1) := by
    rw [hone]
    simp [abs, float64]
  have hle : float64.le (normSquare float64 v)
      (float64.conv (VectorEpsilonConst * VectorEpsilonConst)) = false := by
    rw [hzero]
    show decide (normSquare float64 v ≤ 0) = false
    exact decide_eq_false (by linarith)
  have hlt : float64.lt (abs float64 (float64.sub (normSquare float64 v) (float64.conv 1)))
      (float64.conv (VectorEpsilonConst * VectorEpsilonConst)) = true := by
    rw [habs, hzero]
    show decide (-(normSquare float64 v - 1) < 0) = true
    exact decide_eq_true (by linarith)
  unfold norm
  dsimp only
  rw [hle, hlt]
  exact hone

/-- C19 (fails on the code): for the vector `(3, 4, 0)`, of squared length
`25`, `norm` returns `1` and not `5`, on `int64` and on `float64` alike and
whatever `math.Sqrt` computes, so `norm(v) * norm(v) = 1` differs from
`normSquare(v) = 25`.  The cause is `abs`, which negates its argument
(`abs(24) = -24`), so the test `abs(ls - 1) < 0` holds for every `ls > 1`. -/
theorem C19_norm_returns_one (mathSqrt : ℚ → ℚ) :
    normSquare int64 ⟨3, 4, 0⟩ = 25
    ∧ abs int64 24 = -24
    ∧ norm mathSqrt int64 ⟨3, 4, 0⟩ = 1
    ∧ norm mathSqrt int64 ⟨3, 4, 0⟩ ≠ 5
    ∧ int64.mul (norm mathSqrt int64 ⟨3, 4, 0⟩) (norm mathSqrt int64 ⟨3, 4, 0⟩)
        ≠ normSquare int64 ⟨3, 4, 0⟩
    ∧ normSquare float64 ⟨3, 4, 0⟩ = 25
    ∧ abs float64 24 = -24
    ∧ norm mathSqrt float64 ⟨3, 4, 0⟩ = 1
    ∧ norm mathSqrt float64 ⟨3, 4, 0⟩ ≠ 5
    ∧ float64.mul (norm mathSqrt float64 ⟨3, 4, 0⟩) (norm mathSqrt float64 ⟨3, 4, 0⟩)
        ≠ normSquare float64 ⟨3, 4, 0⟩ := by
  have hi : normSquare int64 ⟨3, 4, 0⟩ = 25 := by decide
  have hf : normSquare float64 ⟨3, 4, 0⟩ = 25 := by
    simp [normSquare, float64]
    norm_num
  have ni : norm mathSqrt int64 ⟨3, 4, 0⟩ = 1 :=
    norm_int64_of_one_lt mathSqrt _ (by rw [hi]; decide)
  have nf : norm mathSqrt float64 ⟨3, 4, 0⟩ = 1 :=
    norm_float64_of_one_lt mathSqrt _ (by rw [hf]; norm_num)
  refine ⟨hi, by decide, ni, ?_, ?_, hf, ?_, nf, ?_, ?_⟩
  · rw [ni]
    decide
  · rw [ni, hi]
    decide
  · simp [abs, float64]
  · rw [nf]
    norm_num
  · rw [nf, hf]
    simp [float64]

/-! ## C20 -/

/-- C20 (fails on the code): for `v = (2, 3, 0)` and the unit axis vector
`n = (1, 0, 0)`, `projectNormalTo` returns `(2, 6, 0)`: it scales `v - n` by
`dot(v, n)`.  The result has conventional dot product `2` with `n`, not `0`,
and differs from `v - (v·n) n = (0, 3, 0)`; on `int64` and on `float64`
alike.  Besides, `dot` adds the `z` components instead of multiplying them:
`dot((0,0,1), (0,0,1)) = 2`. -/
theorem C20_projection_not_orthogonal :
    projectNormalTo int64 ⟨2, 3, 0⟩ ⟨1, 0, 0⟩ = ⟨2, 6, 0⟩
    ∧ conventionalDot int64 (projectNormalTo int64 ⟨2, 3, 0⟩ ⟨1, 0, 0⟩) ⟨1, 0, 0⟩ = 2
    ∧ conventionalProjection int64 ⟨2, 3, 0⟩ ⟨1, 0, 0⟩ = ⟨0, 3, 0⟩
    ∧ dot int64 ⟨0, 0, 1⟩ ⟨0, 0, 1⟩ = 2
    ∧ conventionalDot int64 ⟨0, 0, 1⟩ ⟨0, 0, 1⟩ = 1
    ∧ projectNormalTo float64 ⟨2, 3, 0⟩ ⟨1, 0, 0⟩ = ⟨2, 6, 0⟩
    ∧ conventionalDot float64 (projectNormalTo float64 ⟨2, 3, 0⟩ ⟨1, 0, 0⟩) ⟨1, 0, 0⟩ = 2
    ∧ conventionalProjection float64 ⟨2, 3, 0⟩ ⟨1, 0, 0⟩ = ⟨0, 3, 0⟩
    ∧ dot float64 ⟨0, 0, 1⟩ ⟨0, 0, 1⟩ = 2
    ∧ conventionalDot float64 ⟨0, 0, 1⟩ ⟨0, 0, 1⟩ = 1 := by
  have pf : projectNormalTo float64 ⟨2, 3, 0⟩ ⟨1, 0, 0⟩ = ⟨2, 6, 0⟩ := by
    simp [projectNormalTo, vec3Scale, vec3Sub, dot, float64]
    norm_num
  refine ⟨by decide, by decide, by decide, by decide, by decide, pf, ?_, ?_, ?_, ?_⟩
  · rw [pf]
    simp [conventionalDot, float64]
  · simp [conventionalProjection, conventionalDot, vec3Scale, vec3Sub, float64]
  · simp [dot, float64]
    norm_num
  · simp [conventionalDot, float64]

end Manta
